import Mathlib

/-!
Verification of the metrics calculation engine of an ML-artifact registry.

The engine lives in `src/src/metrics/` (eight sub-scorers, an aggregator
`MetricsCalculator`, and the ingestion threshold gate `check_ingest_threshold`)
together with the data model in `src/src/models/model.py`.  This file is a
shallow embedding of that Python code:

* Python strings are modeled as lists of Unicode code points (`PyStr`);
  `pstr` embeds a literal.  `str.lower` is modeled on the ASCII range, which
  covers every string constant the engine compares against.
* Python floats are modeled as exact rationals (`ℚ`); `round(x, 4)` is modeled
  as round-half-to-even on `x * 10000` (binary floating point representation
  error is abstracted away).
* Wall-clock latencies are abstracted: `latency_ms` fields are carried but not
  specified, and the `*_latency` entries of the output (pure timing data,
  excluded by every claim) are not modeled.
* `datetime` values are modeled at day granularity: an ISO date string parses
  to a day number (days since the Unix epoch) and `datetime.now()` becomes an
  explicit `now : ℤ` parameter threaded through the evaluation.  Sub-day
  precision and time-zone handling do not affect any claim (every date only
  feeds day-bucketed recency scores).
* The thread pool of `calculate_all_metrics` is modeled by an explicit
  completion order: `as_completed` yields the eight tasks in an arbitrary
  permutation `order` of the metric names, and the results dictionary is the
  association list built in that order.  A sub-scorer raising an exception is
  modeled by a fault assignment `faults : String → Option PyStr` giving the
  error message of the task, if it raises.
-/

set_option maxHeartbeats 1000000

namespace MetricsEngine

/-- Python strings as lists of Unicode code points. -/
abbrev PyStr := List Nat

/-- Embed a Lean string literal as a `PyStr`. -/
def pstr (s : String) : PyStr := s.data.map Char.toNat

/-- ASCII `str.lower` on one code point. -/
def lowerChar (c : Nat) : Nat := if 65 ≤ c ∧ c ≤ 90 then c + 32 else c

/-- Model of Python `s.lower()` (ASCII range). -/
def pyLower (s : PyStr) : PyStr := s.map lowerChar

/-- Python whitespace (the characters removed by `str.strip`). -/
def isSpaceChar (c : Nat) : Bool := c = 32 || c = 9 || c = 10 || c = 13 || c = 11 || c = 12

/-- Model of Python `s.strip()`. -/
def pyStrip (s : PyStr) : PyStr :=
  ((s.dropWhile isSpaceChar).reverse.dropWhile isSpaceChar).reverse

/-- Model of Python `s.replace(a, b)` for single-character `a`, `b`. -/
def pyReplaceChar (a b : Nat) (s : PyStr) : PyStr :=
  s.map (fun c => if c = a then b else c)

/-- Model of Python `sub in s` (substring containment). -/
def pyIn (sub s : PyStr) : Bool :=
  match s with
  | [] => sub.isEmpty
  | _ :: t => sub.isPrefixOf s || pyIn sub t

/-- Model of Python `s.startswith(p)`. -/
def pyStartsWith (s p : PyStr) : Bool := p.isPrefixOf s

/-- Model of Python `s.endswith(p)`. -/
def pyEndsWith (s p : PyStr) : Bool := p.isSuffixOf s

/-- Model of Python `s.count(sub)` for nonempty `sub`
(number of non-overlapping occurrences, scanning left to right). -/
def pyCount (sub s : PyStr) : Nat :=
  match s with
  | [] => 0
  | _ :: t =>
    if sub.isPrefixOf s ∧ sub ≠ [] then 1 + pyCount sub (t.drop (sub.length - 1))
    else pyCount sub t
termination_by s.length
decreasing_by
  · simp only [List.length_cons, List.length_drop]
    omega
  · simp

/-- Model of Python `s.split(sep, 1)[1]` for a single-character separator:
everything after the first occurrence of the separator (empty if absent). -/
def pyAfterFirst (sep : Nat) (s : PyStr) : PyStr :=
  (s.dropWhile (fun c => !(c == sep))).tail

/-- Model of Python `s.split(sep)[0]` for a single-character separator. -/
def pyBeforeFirst (sep : Nat) (s : PyStr) : PyStr :=
  s.takeWhile (fun c => !(c == sep))

/-- ASCII decimal digit test. -/
def isDigitChar (c : Nat) : Bool := 48 ≤ c && c ≤ 57

/-- Association-list lookup, modeling Python dictionary access by key. -/
def lookupKey {α : Type} (m : List (String × α)) (k : String) : Option α :=
  match m with
  | [] => none
  | p :: t => if p.1 = k then some p.2 else lookupKey t k

/-! ## Dates

`BusFactorMetric._score_activity` parses `last_modified` with
`datetime.fromisoformat` (strings containing `"T"`) or
`datetime.strptime(s[:10], "%Y-%m-%d")`, and buckets the number of days
between the parse result and `datetime.now()`.  Dates are modeled at day
granularity: both branches parse the leading `YYYY-MM-DD` of the string to a
day number (days since 1970-01-01, Gregorian).  Invalid dates fail to parse,
matching the `except` fallback of the Python code. -/

/-- Leap year test (proleptic Gregorian, as `datetime` uses). -/
def isLeapYear (y : Nat) : Bool := (y % 4 = 0 && y % 100 ≠ 0) || y % 400 = 0

/-- Days in a month (`datetime` validates the day of month against this). -/
def daysInMonth (y m : Nat) : Nat :=
  if m = 2 then (if isLeapYear y then 29 else 28)
  else if m = 4 || m = 6 || m = 9 || m = 11 then 30
  else 31

/-- Day number of a civil date, in days since 1970-01-01
(standard days-from-civil computation; valid for years ≥ 1). -/
def daysFromCivil (y m d : Nat) : ℤ :=
  let yAdj : Nat := if m ≤ 2 then y - 1 else y
  let era : Nat := yAdj / 400
  let yoe : Nat := yAdj - era * 400
  let mp : Nat := (m + 9) % 12
  let doy : Nat := (153 * mp + 2) / 5 + d - 1
  let doe : Nat := yoe * 365 + yoe / 4 - yoe / 100 + doy
  (era : ℤ) * 146097 + (doe : ℤ) - 719468

/-- Parse a ten-character `YYYY-MM-DD` date to its day number, validating the
calendar date as `datetime.strptime(s, "%Y-%m-%d")` does; `none` models the
parse raising. -/
def parseYMD (s : PyStr) : Option ℤ :=
  match s with
  | [y1, y2, y3, y4, h1, m1, m2, h2, d1, d2] =>
    if isDigitChar y1 && isDigitChar y2 && isDigitChar y3 && isDigitChar y4 &&
       h1 = 45 && isDigitChar m1 && isDigitChar m2 && h2 = 45 &&
       isDigitChar d1 && isDigitChar d2 then
      let y := (y1 - 48) * 1000 + (y2 - 48) * 100 + (y3 - 48) * 10 + (y4 - 48)
      let m := (m1 - 48) * 10 + (m2 - 48)
      let d := (d1 - 48) * 10 + (d2 - 48)
      if 1 ≤ y ∧ 1 ≤ m ∧ m ≤ 12 ∧ 1 ≤ d ∧ d ≤ daysInMonth y m then
        some (daysFromCivil y m d)
      else none
    else none
  | _ => none

/-- Day-granularity model of the date parsing in `_score_activity`: the
`fromisoformat` branch (strings containing `"T"`) and the `strptime` branch
both reduce to parsing the leading `YYYY-MM-DD`. -/
def parseDate (s : PyStr) : Option ℤ :=
  if pyIn (pstr "T") s then parseYMD (s.take 10) else parseYMD (s.take 10)

/-! ## Data model (`src/src/models/model.py`)

Raw `api_data` is an open dictionary in Python; it is modeled by a structure
holding exactly the keys the engine reads, with `Option` marking key
presence where the code tests for it.  A `siblings` entry that is not a
dictionary is modeled by `isDict := false` (such entries are skipped wherever
they are read).  Entries of `model_index` are abstracted to the count of their
`results` list (a non-dictionary entry, or one whose `results` is not a list,
counts 0 results, exactly as the code treats it). -/

/-- One entry of a `siblings` file list: `rfilename` and `size` are read with
`.get(..., default)`, so a missing key coincides with the default. -/
structure Sibling where
  isDict : Bool := true
  rfilename : PyStr := []
  size : ℤ := 0
deriving DecidableEq

/-- The `cardData` dictionary (only `license` presence and `datasets` are read). -/
structure CardData where
  license : Option PyStr := none
  datasets : List PyStr := []
deriving DecidableEq

/-- The raw HF API response dictionary, restricted to the keys the engine
reads.  `model_info.api_data or {}` makes a missing dictionary behave as the
all-default value.  `modelIndexCounts` models
`api_data.get("model_index") or api_data.get("modelIndex") or []`. -/
structure ApiData where
  license : Option PyStr := none
  cardDataIsDict : Bool := true
  cardData : CardData := {}
  siblings : List Sibling := []
  lastModified : PyStr := []
  description : PyStr := []
  modelIndexCounts : List Nat := []
deriving DecidableEq

/-- `ModelInfo` from `src/src/models/model.py` (the Artifact Descriptor),
restricted to the fields the engine reads. -/
structure ModelInfo where
  name : PyStr := []
  api_data : ApiData := {}
  downloads : ℤ := 0
  likes : ℤ := 0
  last_modified : PyStr := []
  tags : List PyStr := []
  pipeline_tag : PyStr := []
  library_name : PyStr := []
  model_index : List Nat := []
  license : PyStr := []
  readme : PyStr := []
  siblings : List Sibling := []
deriving DecidableEq

/-- `ModelInfo.total_size_bytes`: sum of `size` over dictionary-shaped
`siblings` entries. -/
def ModelInfo.total_size_bytes (mi : ModelInfo) : ℤ :=
  (mi.siblings.filter (·.isDict)).foldl (fun acc s => acc + s.size) 0

/-- `SizeScore` from `src/src/models/model.py`. -/
structure SizeScore where
  raspberry_pi : ℚ := 0
  jetson_nano : ℚ := 0
  desktop_pc : ℚ := 0
  aws_server : ℚ := 0
deriving DecidableEq

/-- `MetricResult` from `src/src/models/model.py`.  The open `details`
dictionary is modeled by the two entries the rest of the engine reads back:
`details["hardware_scores"]` (set by the size metric) and `details["error"]`
(set by the aggregator's fault substitute); the remaining entries are
diagnostic output that nothing reads. -/
structure MetricResult where
  name : String
  value : ℚ
  latency_ms : ℤ := 0
  hardwareScores : Option SizeScore := none
  errorMsg : Option PyStr := none
deriving DecidableEq

/-- The idiom `model_info.readme.lower() if model_info.readme else ""`,
which opens most of the readme-driven component scorers. -/
def readmeLower (mi : ModelInfo) : PyStr :=
  if mi.readme ≠ [] then pyLower mi.readme else []

/-! ## Regular-expression scanners

Each regular expression the engine uses is embedded as a dedicated scanner
over `PyStr`.  The character classes involved (`\d`, `\s`, `\w`,
`[a-z0-9_\-]`, …) are disjoint from the literal that follows them in every
pattern, so greedy maximal-munch scanning without backtracking implements the
Python semantics. -/

/-- Class `[a-z0-9\-\.]` of the license pattern. -/
def isLicChar (c : Nat) : Bool :=
  (97 ≤ c && c ≤ 122) || isDigitChar c || c = 45 || c = 46

/-- Class `[a-z0-9_\-]` of the dataset and GitHub patterns. -/
def isSlugChar (c : Nat) : Bool :=
  (97 ≤ c && c ≤ 122) || isDigitChar c || c = 95 || c = 45

/-- Class `\w` (word character, ASCII range). -/
def isWordChar (c : Nat) : Bool :=
  (97 ≤ c && c ≤ 122) || (65 ≤ c && c ≤ 90) || isDigitChar c || c = 95

/-- Match of `license[:\s]+([a-z0-9\-\.]+)` anchored at the head of `s`,
returning the captured group. -/
def licMatchAt (s : PyStr) : Option PyStr :=
  if (pstr "license").isPrefixOf s then
    let rest := s.drop 7
    let seps := rest.takeWhile (fun c => c = 58 || isSpaceChar c)
    let cap := (rest.drop seps.length).takeWhile isLicChar
    if seps ≠ [] ∧ cap ≠ [] then some cap else none
  else none

/-- Model of `re.search(r'license[:\s]+([a-z0-9\-\.]+)', s)`: the captured
group of the leftmost match. -/
def licSearch (s : PyStr) : Option PyStr :=
  match s with
  | [] => none
  | _ :: t => match licMatchAt s with
    | some cap => some cap
    | none => licSearch t

/-- Match length of `\d+\.?\d*\s*%` anchored at the head of `s` (the first
alternative of the numeric-results pattern, after its `\b`). -/
def numPercentAt (s : PyStr) : Option Nat :=
  let ds := s.takeWhile isDigitChar
  if ds = [] then none
  else
    let rest := s.drop ds.length
    let withDot : Option Nat :=
      match rest with
      | 46 :: r2 =>
        let ds2 := r2.takeWhile isDigitChar
        let sp := (r2.drop ds2.length).takeWhile isSpaceChar
        match (r2.drop ds2.length).drop sp.length with
        | 37 :: _ => some (ds.length + 1 + ds2.length + sp.length + 1)
        | _ => none
      | _ => none
    match withDot with
    | some n => some n
    | none =>
      let sp := rest.takeWhile isSpaceChar
      match rest.drop sp.length with
      | 37 :: _ => some (ds.length + sp.length + 1)
      | _ => none

/-- Match length of `0\.\d+\b` anchored at the head of `s` (the second
alternative of the numeric-results pattern, after its `\b`). -/
def zeroFracAt (s : PyStr) : Option Nat :=
  match s with
  | 48 :: 46 :: r =>
    let ds := r.takeWhile isDigitChar
    if ds = [] then none
    else match r.drop ds.length with
      | [] => some (2 + ds.length)
      | c :: _ => if isWordChar c then none else some (2 + ds.length)
  | _ => none

/-- Model of `len(re.findall(r'\b\d+\.?\d*\s*%|\b0\.\d+\b', s))`: the number
of non-overlapping matches, scanning left to right.  `prev` is the character
before the current position (for the word-boundary tests). -/
def countNumericResults (prev : Option Nat) (s : PyStr) : Nat :=
  match s with
  | [] => 0
  | c :: t =>
    let boundary := match prev with
      | none => true
      | some p => !isWordChar p
    let m := if boundary then
        match numPercentAt s with
        | some n => some n
        | none => zeroFracAt s
      else none
    match m with
    | some n => 1 + countNumericResults (some ((s.take n).getLastD 0)) (t.drop (n - 1))
    | none => countNumericResults (some c) t
termination_by s.length
decreasing_by
  · simp only [List.length_cons, List.length_drop]
    omega
  · simp

/-- Anchored match of `\s+on\s+[a-z0-9_\-]+` (the common tail of the
`trained on` / `fine-tuned on` patterns). -/
def onCaptureAt (s : PyStr) : Bool :=
  let sp1 := s.takeWhile isSpaceChar
  if sp1 = [] then false
  else
    let r1 := s.drop sp1.length
    if (pstr "on").isPrefixOf r1 then
      let r2 := r1.drop 2
      let sp2 := r2.takeWhile isSpaceChar
      sp2 ≠ [] ∧ (r2.drop sp2.length).takeWhile isSlugChar ≠ []
    else false

/-- Anchored match of `trained\s+on\s+([a-z0-9_\-]+)`. -/
def trainedOnAt (s : PyStr) : Bool :=
  (pstr "trained").isPrefixOf s && onCaptureAt (s.drop 7)

/-- Anchored match of `fine.?tuned\s+on\s+([a-z0-9_\-]+)` (`.` matches any
character except a newline). -/
def finetunedOnAt (s : PyStr) : Bool :=
  (pstr "fine").isPrefixOf s &&
    (let r := s.drop 4
     (match r with
      | c :: r2 => c ≠ 10 && (pstr "tuned").isPrefixOf r2 && onCaptureAt (r2.drop 5)
      | [] => false) ||
     ((pstr "tuned").isPrefixOf r && onCaptureAt (r.drop 5)))

/-- Anchored match of `dataset[:\s]+([a-z0-9_\-]+)`. -/
def datasetRefAt (s : PyStr) : Bool :=
  if (pstr "dataset").isPrefixOf s then
    let rest := s.drop 7
    let seps := rest.takeWhile (fun c => c = 58 || isSpaceChar c)
    seps ≠ [] ∧ (rest.drop seps.length).takeWhile isSlugChar ≠ []
  else false

/-- Model of `re.search(pat, s) is not None` for an anchored matcher `f`
that needs no word-boundary context. -/
def scanHas (f : PyStr → Bool) (s : PyStr) : Bool :=
  match s with
  | [] => f []
  | _ :: t => f s || scanHas f t

/-- Anchored match of `github\.com/[a-z0-9_\-]+/[a-z0-9_\-]+`, returning the
match length. -/
def githubLinkAt (s : PyStr) : Option Nat :=
  if (pstr "github.com/").isPrefixOf s then
    let r1 := s.drop 11
    let owner := r1.takeWhile isSlugChar
    if owner = [] then none
    else match r1.drop owner.length with
      | 47 :: r2 =>
        let repo := r2.takeWhile isSlugChar
        if repo = [] then none
        else some (11 + owner.length + 1 + repo.length)
      | _ => none
  else none

/-- Model of `len(re.findall(r'github\.com/[a-z0-9_\-]+/[a-z0-9_\-]+', s))`. -/
def countGithubLinks (s : PyStr) : Nat :=
  match s with
  | [] => 0
  | _ :: t =>
    match githubLinkAt s with
    | some n => 1 + countGithubLinks (t.drop (n - 1))
    | none => countGithubLinks t
termination_by s.length
decreasing_by
  · simp only [List.length_cons, List.length_drop]
    omega
  · simp

/-- Anchored match of `\d+[kmbt]?\s*(samples|examples|instances|records)`
(after its `\b`). -/
def dataStatsAt (s : PyStr) : Bool :=
  let ds := s.takeWhile isDigitChar
  if ds = [] then false
  else
    let rest := s.drop ds.length
    let lits := fun (r : PyStr) =>
      let sp := r.takeWhile isSpaceChar
      let r2 := r.drop sp.length
      (pstr "samples").isPrefixOf r2 || (pstr "examples").isPrefixOf r2 ||
        (pstr "instances").isPrefixOf r2 || (pstr "records").isPrefixOf r2
    (match rest with
     | c :: r2 => (c = 107 || c = 109 || c = 98 || c = 116) && lits r2
     | [] => false) ||
    lits rest

/-- Model of `re.search(r'\b\d+[kmbt]?\s*(samples|examples|instances|records)', s)
is not None`; `prev` is the character before the current position. -/
def hasDataStats (prev : Option Nat) (s : PyStr) : Bool :=
  match s with
  | [] => false
  | c :: t =>
    let boundary := match prev with
      | none => true
      | some p => !isWordChar p
    (boundary && dataStatsAt s) || hasDataStats (some c) t

/-! ## License metric (`src/src/metrics/license_metric.py`) -/

/-- `LicenseMetric.LICENSE_SCORES`, in insertion order (the partial-match
fallback iterates the dictionary in this order). -/
def LICENSE_SCORES : List (PyStr × ℚ) := [
  (pstr "mit", 1), (pstr "bsd-3-clause", 1), (pstr "bsd-2-clause", 1),
  (pstr "bsd", 1), (pstr "apache-2.0", 9/10), (pstr "apache", 9/10),
  (pstr "unlicense", 1), (pstr "cc0-1.0", 1), (pstr "wtfpl", 1),
  (pstr "isc", 1),
  (pstr "cc-by-4.0", 8/10), (pstr "cc-by-sa-4.0", 7/10),
  (pstr "openrail", 8/10), (pstr "openrail++", 8/10),
  (pstr "bigscience-openrail-m", 75/100), (pstr "creativeml-openrail-m", 75/100),
  (pstr "llama2", 7/10), (pstr "llama3", 7/10), (pstr "gemma", 7/10),
  (pstr "lgpl-2.1", 6/10), (pstr "lgpl-3.0", 6/10), (pstr "lgpl", 6/10),
  (pstr "mpl-2.0", 6/10), (pstr "gpl-2.0", 3/10), (pstr "gpl-3.0", 3/10),
  (pstr "gpl", 3/10), (pstr "agpl-3.0", 2/10), (pstr "agpl", 2/10),
  (pstr "cc-by-nc-4.0", 4/10), (pstr "cc-by-nc-sa-4.0", 3/10),
  (pstr "cc-by-nc-nd-4.0", 2/10),
  (pstr "other", 3/10), (pstr "unknown", 1/10)]

/-- `LicenseMetric._extract_license`. -/
def extract_license (mi : ModelInfo) : PyStr :=
  if mi.license ≠ [] then mi.license
  else match mi.api_data.license with
  | some l => l
  | none =>
    match (if mi.api_data.cardDataIsDict then mi.api_data.cardData.license else none) with
    | some l => l
    | none =>
      match mi.tags.find? (fun tag => pyIn (pstr "license:") (pyLower tag)) with
      | some tag => pyStrip (pyAfterFirst 58 tag)
      | none =>
        if mi.readme ≠ [] then
          match licSearch (pyLower mi.readme) with
          | some cap => cap
          | none => pstr "unknown"
        else pstr "unknown"

/-- `LicenseMetric._normalize_license`. -/
def normalize_license (s : PyStr) : PyStr :=
  if s = [] then pstr "unknown"
  else
    let n := pyReplaceChar 95 45 (pyReplaceChar 32 45 (pyStrip (pyLower s)))
    if pyIn (pstr "apache") n && pyIn (pstr "2") n then pstr "apache-2.0"
    else if n = pstr "mit" ∨ n = pstr "mit-license" then pstr "mit"
    else if pyIn (pstr "bsd") n then
      (if pyIn (pstr "3") n then pstr "bsd-3-clause"
       else if pyIn (pstr "2") n then pstr "bsd-2-clause"
       else pstr "bsd")
    else if pyIn (pstr "gpl") n then
      (if pyIn (pstr "lgpl") n then
        (if pyIn (pstr "3") n then pstr "lgpl-3.0" else pstr "lgpl-2.1")
       else if pyIn (pstr "agpl") n then pstr "agpl-3.0"
       else if pyIn (pstr "3") n then pstr "gpl-3.0"
       else pstr "gpl-2.0")
    else n

/-- `LicenseMetric._score_license`. -/
def score_license (n : PyStr) : ℚ :=
  match LICENSE_SCORES.find? (fun p => p.1 == n) with
  | some p => p.2
  | none =>
    match LICENSE_SCORES.find? (fun p => pyIn p.1 n || pyIn n p.1) with
    | some p => p.2
    | none => 3/10

/-- `LicenseMetric.calculate` (latency abstracted to 0). -/
def license_calculate (mi : ModelInfo) : MetricResult :=
  { name := "license",
    value := score_license (normalize_license (extract_license mi)) }

/-- The `permissive` set of `check_license_compatibility`. -/
def permissiveSet : List PyStr :=
  [pstr "mit", pstr "bsd", pstr "bsd-2-clause", pstr "bsd-3-clause",
   pstr "apache-2.0", pstr "unlicense", pstr "cc0-1.0"]

/-- The `gpl_family` set of `check_license_compatibility`. -/
def gplFamily : List PyStr :=
  [pstr "gpl-2.0", pstr "gpl-3.0", pstr "lgpl-2.1", pstr "lgpl-3.0"]

/-- The `openrail` set of `check_license_compatibility`. -/
def openrailSet : List PyStr :=
  [pstr "openrail", pstr "openrail++", pstr "bigscience-openrail-m",
   pstr "creativeml-openrail-m"]

/-- `check_license_compatibility` from `src/src/metrics/license_metric.py`. -/
def check_license_compatibility (license1 license2 : PyStr) : Bool :=
  let l1 := normalize_license license1
  let l2 := normalize_license license2
  if permissiveSet.contains l1 || permissiveSet.contains l2 then true
  else if l1 = l2 then true
  else if gplFamily.contains l1 && gplFamily.contains l2 then true
  else if openrailSet.contains l1 && openrailSet.contains l2 then true
  else decide (7/10 ≤ score_license l1) && decide (7/10 ≤ score_license l2)

/-! ## Size metric (`src/src/metrics/size_metric.py`) -/

/-- `SizeMetric.HARDWARE_LIMITS` (bytes), in insertion order. -/
def HARDWARE_LIMITS : List (String × ℚ) :=
  [("raspberry_pi", 1073741824), ("jetson_nano", 4294967296),
   ("desktop_pc", 17179869184), ("aws_server", 68719476736)]

/-- `SizeMetric.SIZE_PATTERNS` (bytes), in insertion order (the first
pattern contained in the model name wins). -/
def SIZE_PATTERNS : List (PyStr × ℚ) := [
  (pstr "7b", 13958643712), (pstr "13b", 27917287424),
  (pstr "30b", 64424509440), (pstr "65b", 139586437120),
  (pstr "70b", 150323855360),
  (pstr "tiny", 104857600), (pstr "small", 524288000),
  (pstr "base", 524288000), (pstr "medium", 1610612736),
  (pstr "large", 3221225472), (pstr "xl", 6442450944),
  (pstr "xxl", 12884901888)]

/-- `SizeMetric._estimate_size`. -/
def estimate_size (mi : ModelInfo) : ℚ :=
  if 0 < mi.total_size_bytes then (mi.total_size_bytes : ℚ)
  else
    let sibTotal : ℤ :=
      (mi.api_data.siblings.filter (·.isDict)).foldl (fun acc s => acc + s.size) 0
    if mi.api_data.siblings ≠ [] ∧ 0 < sibTotal then (sibTotal : ℚ)
    else
      let name_lower := pyLower mi.name
      match SIZE_PATTERNS.find? (fun p => pyIn p.1 name_lower) with
      | some p => p.2
      | none =>
        let library := if mi.library_name ≠ [] then pyLower mi.library_name else []
        if pyIn (pstr "sentence-transformer") library ∨
           pyIn (pstr "sentence-transformer") name_lower then 524288000
        else if pyIn (pstr "bert") name_lower then 524288000
        else if pyIn (pstr "gpt2") name_lower ∧ ¬ pyIn (pstr "xl") name_lower then 629145600
        else if pyIn (pstr "whisper") name_lower then
          (if pyIn (pstr "tiny") name_lower then 157286400
           else if pyIn (pstr "small") name_lower then 524288000
           else if pyIn (pstr "medium") name_lower then 1610612736
           else if pyIn (pstr "large") name_lower then 3221225472
           else 524288000)
        else if 1000000 < mi.downloads then 524288000
        else if 100000 < mi.downloads then 1073741824
        else if 10000 < mi.downloads then 2147483648
        else 2147483648

/-- `SizeMetric._calculate_hardware_score`. -/
def calculate_hardware_score (size_bytes limit_bytes : ℚ) : ℚ :=
  if size_bytes ≤ 0 then 1
  else
    let r := size_bytes / limit_bytes
    if r ≤ 1/4 then 1
    else if r ≤ 1/2 then 9/10
    else if r ≤ 3/4 then 7/10
    else if r ≤ 1 then 1/2
    else if r ≤ 3/2 then 2/10
    else 0

/-- The `SizeScore` built by the `for hw_name, hw_limit in HARDWARE_LIMITS`
loop of `SizeMetric.calculate` (one `setattr` per hardware tier). -/
def size_scores_of (size_bytes : ℚ) : SizeScore :=
  { raspberry_pi := calculate_hardware_score size_bytes 1073741824,
    jetson_nano := calculate_hardware_score size_bytes 4294967296,
    desktop_pc := calculate_hardware_score size_bytes 17179869184,
    aws_server := calculate_hardware_score size_bytes 68719476736 }

/-- `SizeMetric._average_score`. -/
def average_score (ss : SizeScore) : ℚ :=
  (ss.raspberry_pi + ss.jetson_nano + ss.desktop_pc + ss.aws_server) / 4

/-- `SizeMetric.calculate` (latency abstracted to 0; of the diagnostic
`details` only `hardware_scores` is modeled, the entry read back by the
aggregator). -/
def size_calculate (mi : ModelInfo) : MetricResult :=
  let size_bytes := estimate_size mi
  let ss := size_scores_of size_bytes
  { name := "size_score", value := average_score ss, hardwareScores := some ss }

/-! ## Ramp-up metric (`src/src/metrics/rampup_metric.py`) -/

/-- The `sections` keyword table of `RampUpMetric._score_readme`, in
insertion order. -/
def RAMPUP_SECTIONS : List (List PyStr) := [
  [pstr "usage", pstr "how to use", pstr "getting started", pstr "quick start"],
  [pstr "install", pstr "pip install", pstr "requirements", pstr "dependencies"],
  [pstr "example", pstr "sample", pstr "demo", pstr "```python", pstr "```"],
  [pstr "description", pstr "overview", pstr "about", pstr "introduction"],
  [pstr "performance", pstr "benchmark", pstr "accuracy", pstr "results", pstr "evaluation"]]

/-- `RampUpMetric._score_readme`. -/
def score_readme (mi : ModelInfo) : ℚ :=
  let r0 := readmeLower mi
  let readme := if r0 = [] then pyLower mi.api_data.description else r0
  if readme = [] then 3/10
  else
    let score := RAMPUP_SECTIONS.foldl
      (fun acc kws => if kws.any (fun kw => pyIn kw readme) then acc + 12/100 else acc)
      (3/10)
    let score := if 2 ≤ pyCount (pstr "```") readme then score + 1/10 else score
    min score 1

/-- `RampUpMetric._score_examples`. -/
def score_examples (mi : ModelInfo) : ℚ :=
  let readme := readmeLower mi
  let score : ℚ := 3/10
  let score := if pyIn (pstr "```python") readme ∨ pyIn (pstr ">>> ") readme
    then score + 3/10 else score
  let exampleFiles := [pstr "example", pstr "demo", pstr "sample",
    pstr "notebook", pstr ".ipynb"]
  let score := if mi.api_data.siblings.any (fun sib =>
      let filename := if sib.isDict then sib.rfilename else []
      exampleFiles.any (fun ef => pyIn ef (pyLower filename)))
    then score + 2/10 else score
  let score := if mi.pipeline_tag ≠ [] then score + 2/10 else score
  min score 1

/-- `RampUpMetric._score_model_card`. -/
def score_model_card (mi : ModelInfo) : ℚ :=
  let score : ℚ := 2/10
  let score := if mi.pipeline_tag ≠ [] then score + 2/10 else score
  let score := if 3 ≤ mi.tags.length then score + 15/100 else score
  let score := if mi.model_index ≠ [] then score + 25/100 else score
  let score := if mi.license ≠ [] ∧ mi.license ≠ pstr "unknown"
    then score + 1/10 else score
  let score := if mi.library_name ≠ [] then score + 1/10 else score
  min score 1

/-- `RampUpMetric._score_popularity`. -/
def score_popularity (mi : ModelInfo) : ℚ :=
  let download_score : ℚ :=
    if 1000000 ≤ mi.downloads then 1
    else if 100000 ≤ mi.downloads then 8/10
    else if 10000 ≤ mi.downloads then 6/10
    else if 1000 ≤ mi.downloads then 4/10
    else 2/10
  let like_score : ℚ :=
    if 1000 ≤ mi.likes then 1
    else if 100 ≤ mi.likes then 7/10
    else if 10 ≤ mi.likes then 4/10
    else 2/10
  download_score * (7/10) + like_score * (3/10)

/-- `RampUpMetric.calculate` (latency abstracted to 0). -/
def rampup_calculate (mi : ModelInfo) : MetricResult :=
  { name := "ramp_up_time",
    value := score_readme mi * (4/10) + score_examples mi * (3/10) +
      score_model_card mi * (2/10) + score_popularity mi * (1/10) }

/-! ## Bus factor metric (`src/src/metrics/busfactor_metric.py`) -/

/-- `BusFactorMetric.TRUSTED_ORGS`, in insertion order. -/
def TRUSTED_ORGS : List (PyStr × ℚ) := [
  (pstr "google", 95/100), (pstr "openai", 95/100), (pstr "meta", 9/10),
  (pstr "facebook", 9/10), (pstr "microsoft", 9/10), (pstr "nvidia", 9/10),
  (pstr "huggingface", 9/10), (pstr "stability-ai", 85/100),
  (pstr "stabilityai", 85/100), (pstr "mistral", 85/100),
  (pstr "mistralai", 85/100), (pstr "anthropic", 9/10),
  (pstr "bigscience", 85/100), (pstr "eleutherai", 8/10),
  (pstr "allenai", 85/100), (pstr "amazon", 9/10),
  (pstr "salesforce", 85/100), (pstr "deepmind", 95/100),
  (pstr "databricks", 85/100), (pstr "cohere", 85/100)]

/-- `BusFactorMetric._score_organization`. -/
def score_organization (mi : ModelInfo) : ℚ :=
  let name := pyLower mi.name
  match TRUSTED_ORGS.find? (fun p =>
      pyStartsWith name (p.1 ++ pstr "/") || pyIn (pstr "/" ++ p.1 ++ pstr "/") name) with
  | some p => p.2
  | none =>
    match (if pyIn (pstr "/") name then
        TRUSTED_ORGS.find? (fun p => p.1 == pyBeforeFirst 47 name)
      else none) with
    | some p => p.2
    | none =>
      match mi.tags.findSome? (fun tag =>
          (TRUSTED_ORGS.find? (fun p => pyIn p.1 (pyLower tag))).map (·.2)) with
      | some v => v * (9/10)
      | none => 1/2

/-- `BusFactorMetric._score_activity` (`datetime.now()` is the explicit
day-number parameter `now`). -/
def score_activity (now : ℤ) (mi : ModelInfo) : ℚ :=
  let last_modified :=
    if mi.last_modified ≠ [] then mi.last_modified else mi.api_data.lastModified
  if last_modified = [] then 4/10
  else match parseDate last_modified with
  | none => 4/10
  | some d =>
    let days_since := now - d
    if days_since ≤ 7 then 1
    else if days_since ≤ 30 then 9/10
    else if days_since ≤ 90 then 8/10
    else if days_since ≤ 180 then 6/10
    else if days_since ≤ 365 then 4/10
    else 3/10

/-- `BusFactorMetric._score_community`. -/
def score_community (mi : ModelInfo) : ℚ :=
  if 1000000 ≤ mi.downloads ∧ 1000 ≤ mi.likes then 1
  else if 100000 ≤ mi.downloads ∧ 100 ≤ mi.likes then 9/10
  else if 10000 ≤ mi.downloads ∧ 50 ≤ mi.likes then 8/10
  else if 1000 ≤ mi.downloads ∧ 10 ≤ mi.likes then 6/10
  else if 100 ≤ mi.downloads then 4/10
  else 3/10

/-- `BusFactorMetric.calculate` (latency abstracted to 0). -/
def busfactor_calculate (now : ℤ) (mi : ModelInfo) : MetricResult :=
  { name := "bus_factor",
    value := score_organization mi * (3/10) + score_activity now mi * (4/10) +
      score_community mi * (3/10) }

/-! ## Performance metric (`src/src/metrics/performance_metric.py`) -/

/-- `PerformanceMetric.BENCHMARK_KEYWORDS`. -/
def BENCHMARK_KEYWORDS : List PyStr :=
  [pstr "accuracy", pstr "f1", pstr "precision", pstr "recall", pstr "bleu",
   pstr "rouge", pstr "perplexity", pstr "wer", pstr "cer", pstr "map",
   pstr "iou", pstr "auc", pstr "roc", pstr "benchmark", pstr "evaluation",
   pstr "performance", pstr "results", pstr "sota", pstr "state-of-the-art",
   pstr "leaderboard", pstr "score", pstr "metric"]

/-- `PerformanceMetric.KNOWN_BENCHMARKS`. -/
def KNOWN_BENCHMARKS : List PyStr :=
  [pstr "squad", pstr "glue", pstr "superglue", pstr "mmlu", pstr "hellaswag",
   pstr "arc", pstr "winogrande", pstr "truthfulqa", pstr "gsm8k",
   pstr "humaneval", pstr "mbpp", pstr "imagenet", pstr "coco", pstr "voc",
   pstr "cityscapes", pstr "librispeech", pstr "common_voice", pstr "wmt",
   pstr "flores", pstr "mteb"]

/-- `PerformanceMetric._score_model_index` (each `model_index` entry is
abstracted to the length of its `results` list, see `ModelInfo`). -/
def score_model_index (mi : ModelInfo) : ℚ :=
  let midx := if mi.model_index ≠ [] then mi.model_index
    else mi.api_data.modelIndexCounts
  if midx = [] then 3/10
  else
    let total_results := midx.sum
    let score : ℚ := 6/10
    let score :=
      if 5 ≤ total_results then score + 4/10
      else if 3 ≤ total_results then score + 3/10
      else if 1 ≤ total_results then score + 1/10
      else score
    min score 1

/-- `PerformanceMetric._score_readme_benchmarks`. -/
def score_readme_benchmarks (mi : ModelInfo) : ℚ :=
  let readme := readmeLower mi
  if readme = [] then 3/10
  else
    let keyword_matches := BENCHMARK_KEYWORDS.countP (fun kw => pyIn kw readme)
    let score := 3/10 + min ((keyword_matches : ℚ) * (5/100)) (3/10)
    let benchmark_matches := KNOWN_BENCHMARKS.countP (fun bm => pyIn bm readme)
    let score := score + min ((benchmark_matches : ℚ) * (1/10)) (3/10)
    let score := if 5 ≤ countNumericResults none readme then score + 1/10 else score
    min score 1

/-- `PerformanceMetric._score_tags`.  In the task-tag check the Python
`tt in tags` is list membership, not substring containment. -/
def score_tags (mi : ModelInfo) : ℚ :=
  let tags := mi.tags.map pyLower
  let score : ℚ := 3/10
  let evalTags := [pstr "evaluation", pstr "benchmark", pstr "leaderboard", pstr "sota"]
  let score := if tags.any (fun tag => evalTags.any (fun et => pyIn et tag))
    then score + 3/10 else score
  let datasetTags := [pstr "dataset:", pstr "trained_on:", pstr "finetuned:"]
  let score := if tags.any (fun tag => datasetTags.any (fun dt => pyIn dt tag))
    then score + 2/10 else score
  let taskTags := [pstr "text-classification", pstr "question-answering",
    pstr "translation", pstr "summarization", pstr "text-generation",
    pstr "image-classification"]
  let score := if taskTags.any (fun tt => tags.contains tt)
    then score + 2/10 else score
  min score 1

/-- `PerformanceMetric.calculate` (latency abstracted to 0). -/
def performance_calculate (mi : ModelInfo) : MetricResult :=
  { name := "performance_claims",
    value := score_model_index mi * (5/10) + score_readme_benchmarks mi * (35/100) +
      score_tags mi * (15/100) }

/-! ## Dataset-and-code metric (`src/src/metrics/dataset_code_metric.py`) -/

/-- `DatasetCodeMetric._score_datasets`. -/
def score_datasets (mi : ModelInfo) : ℚ :=
  let score : ℚ := 3/10
  let datasets := if mi.api_data.cardDataIsDict then mi.api_data.cardData.datasets else []
  let score := if datasets ≠ []
    then score + min ((datasets.length : ℚ) * (15/100)) (4/10) else score
  let score := score +
    ((mi.tags.countP (fun tag => pyStartsWith tag (pstr "dataset:"))) : ℚ) * (15/100)
  let readme := readmeLower mi
  let score := if scanHas trainedOnAt readme then score + 1/10 else score
  let score := if scanHas finetunedOnAt readme then score + 1/10 else score
  let score := if scanHas datasetRefAt readme then score + 1/10 else score
  let score := if pyIn (pstr "huggingface.co/datasets/") readme then score + 1/10 else score
  min score 1

/-- `DatasetCodeMetric._score_code`. -/
def score_code (mi : ModelInfo) : ℚ :=
  let readme := readmeLower mi
  let score : ℚ := 3/10
  let github_links := countGithubLinks readme
  let score := if github_links ≠ 0
    then score + min ((github_links : ℚ) * (2/10)) (4/10) else score
  let codeExtensions := [pstr ".py", pstr ".ipynb", pstr ".sh", pstr ".yaml",
    pstr ".yml", pstr ".json"]
  let code_files := mi.api_data.siblings.countP (fun sib =>
    let filename := if sib.isDict then sib.rfilename else []
    codeExtensions.any (fun ext => pyEndsWith filename ext))
  let score := if 3 ≤ code_files then score + 3/10
    else if 1 ≤ code_files then score + 15/100
    else score
  min score 1

/-- The `training_keywords` table of `DatasetCodeMetric._score_training_info`. -/
def TRAINING_KEYWORDS : List PyStr :=
  [pstr "training", pstr "fine-tuning", pstr "fine tuning", pstr "hyperparameter",
   pstr "learning rate", pstr "batch size", pstr "epochs", pstr "optimizer",
   pstr "training script", pstr "training code", pstr "reproduce"]

/-- `DatasetCodeMetric._score_training_info`. -/
def score_training_info (mi : ModelInfo) : ℚ :=
  let readme := readmeLower mi
  let nMatches := TRAINING_KEYWORDS.countP (fun kw => pyIn kw readme)
  let score := 3/10 + min ((nMatches : ℚ) * (1/10)) (5/10)
  let configFiles := [pstr "config.json", pstr "training_args.bin",
    pstr "trainer_state.json"]
  let score := score + ((mi.api_data.siblings.countP (fun sib =>
    let filename := if sib.isDict then sib.rfilename else []
    configFiles.contains filename)) : ℚ) * (1/10)
  min score 1

/-- `DatasetCodeMetric.calculate` (latency abstracted to 0). -/
def dataset_code_calculate (mi : ModelInfo) : MetricResult :=
  { name := "dataset_and_code_score",
    value := score_datasets mi * (4/10) + score_code mi * (4/10) +
      score_training_info mi * (2/10) }

/-! ## Dataset quality metric (`src/src/metrics/dataset_quality_metric.py`) -/

/-- `DatasetQualityMetric.QUALITY_DATASETS`, in insertion order. -/
def QUALITY_DATASETS : List (PyStr × ℚ) := [
  (pstr "wikipedia", 9/10), (pstr "bookcorpus", 8/10), (pstr "c4", 85/100),
  (pstr "openwebtext", 8/10), (pstr "pile", 85/100), (pstr "redpajama", 85/100),
  (pstr "squad", 9/10), (pstr "glue", 9/10), (pstr "superglue", 9/10),
  (pstr "imagenet", 95/100), (pstr "coco", 9/10), (pstr "laion", 75/100),
  (pstr "common_crawl", 7/10), (pstr "librispeech", 9/10),
  (pstr "common_voice", 85/100)]

/-- `DatasetQualityMetric._score_known_datasets`. -/
def score_known_datasets (mi : ModelInfo) : ℚ :=
  let readme := readmeLower mi
  let tags := mi.tags.map pyLower
  let search0 := readme ++ pstr " " ++ (tags.intersperse (pstr " ")).flatten
  let datasets := if mi.api_data.cardDataIsDict then mi.api_data.cardData.datasets else []
  let search_text := if datasets ≠ []
    then search0 ++ pstr " " ++ ((datasets.map pyLower).intersperse (pstr " ")).flatten
    else search0
  QUALITY_DATASETS.foldl
    (fun acc p => if pyIn p.1 search_text then max acc p.2 else acc) (4/10)

/-- The `doc_keywords` table of `DatasetQualityMetric._score_documentation`. -/
def DOC_KEYWORDS : List PyStr :=
  [pstr "data collection", pstr "data source", pstr "data preprocessing",
   pstr "data cleaning", pstr "data filtering", pstr "dataset size",
   pstr "training data", pstr "data quality", pstr "data curation"]

/-- `DatasetQualityMetric._score_documentation`. -/
def score_documentation (mi : ModelInfo) : ℚ :=
  let readme := readmeLower mi
  let nMatches := DOC_KEYWORDS.countP (fun kw => pyIn kw readme)
  let score := 3/10 + min ((nMatches : ℚ) * (1/10)) (5/10)
  let score := if hasDataStats none readme then score + 2/10 else score
  min score 1

/-- The `curation_keywords` table of `DatasetQualityMetric._score_curation`. -/
def CURATION_KEYWORDS : List PyStr :=
  [pstr "curated", pstr "filtered", pstr "cleaned", pstr "quality control",
   pstr "human review", pstr "annotation", pstr "labeled", pstr "verified"]

/-- `DatasetQualityMetric._score_curation`. -/
def score_curation (mi : ModelInfo) : ℚ :=
  let readme := readmeLower mi
  let nMatches := CURATION_KEYWORDS.countP (fun kw => pyIn kw readme)
  let score := 4/10 + min ((nMatches : ℚ) * (15/100)) (4/10)
  let biasKeywords := [pstr "bias", pstr "fairness", pstr "ethics", pstr "limitations"]
  let score := if biasKeywords.any (fun kw => pyIn kw readme) then score + 2/10 else score
  min score 1

/-- `DatasetQualityMetric.calculate` (latency abstracted to 0). -/
def dataset_quality_calculate (mi : ModelInfo) : MetricResult :=
  { name := "dataset_quality",
    value := score_known_datasets mi * (5/10) + score_documentation mi * (3/10) +
      score_curation mi * (2/10) }

/-! ## Code quality metric (`src/src/metrics/code_quality_metric.py`)

Only the model-flavoured `calculate` is embedded; `calculate_for_repo` (the
GitHub-repository variant over `CodeInfo`) is not reachable from the
aggregator. -/

/-- The `good_files` table of `CodeQualityMetric._score_code_structure`. -/
def GOOD_FILES : List (PyStr × ℚ) := [
  (pstr "config.json", 1/10), (pstr "tokenizer.json", 1/10),
  (pstr "tokenizer_config.json", 5/100), (pstr "special_tokens_map.json", 5/100),
  (pstr "model.safetensors", 1/10), (pstr "pytorch_model.bin", 1/10)]

/-- `CodeQualityMetric._score_code_structure`. -/
def score_code_structure (mi : ModelInfo) : ℚ :=
  let score := mi.api_data.siblings.foldl (fun acc sib =>
    let filename := if sib.isDict then sib.rfilename else []
    match GOOD_FILES.find? (fun p => p.1 == filename) with
    | some p => acc + p.2
    | none => acc) (4/10)
  let py_files := mi.api_data.siblings.countP (fun s =>
    s.isDict && pyEndsWith s.rfilename (pstr ".py"))
  let score := if 1 ≤ py_files then score + 1/10 else score
  min score 1

/-- `CodeQualityMetric._score_code_documentation`. -/
def score_code_documentation (mi : ModelInfo) : ℚ :=
  let readme := mi.readme
  let score : ℚ := 3/10
  let score := if pyIn (pstr "```python") (pyLower readme) then score + 2/10 else score
  let score := if pyIn (pstr "parameters") (pyLower readme) ∨
      pyIn (pstr "arguments") (pyLower readme) then score + 15/100 else score
  let score := if pyIn (pstr "type") (pyLower readme) ∧
      (pyIn (pstr "hint") (pyLower readme) ∨ pyIn (pstr "annotation") (pyLower readme))
    then score + 15/100 else score
  let score := if 5000 < readme.length then score + 2/10
    else if 2000 < readme.length then score + 1/10
    else score
  min score 1

/-- `CodeQualityMetric._score_testing`. -/
def score_testing (mi : ModelInfo) : ℚ :=
  let readme := readmeLower mi
  let score : ℚ := 3/10
  let test_files := mi.api_data.siblings.countP (fun s =>
    s.isDict && (pyIn (pstr "test") (pyLower s.rfilename) ||
      pyStartsWith s.rfilename (pstr "test_")))
  let score := if 1 ≤ test_files then score + 3/10 else score
  let score := if pyIn (pstr "test") readme ∨ pyIn (pstr "pytest") readme ∨
      pyIn (pstr "unittest") readme then score + 2/10 else score
  let ciKeywords := [pstr "github actions", pstr "ci/cd",
    pstr "continuous integration", pstr "travis", pstr "circleci"]
  let score := if ciKeywords.any (fun ci => pyIn ci readme) then score + 2/10 else score
  min score 1

/-- `CodeQualityMetric.calculate` (latency abstracted to 0). -/
def code_quality_calculate (mi : ModelInfo) : MetricResult :=
  { name := "code_quality",
    value := score_code_structure mi * (4/10) + score_code_documentation mi * (35/100) +
      score_testing mi * (25/100) }

/-! ## Aggregator (`src/src/metrics/calculator.py`) -/

/-- Python `round(x, 4)`: round half to even at the fourth decimal
(the binary floating point representation is abstracted to exact rationals). -/
def roundHalfEven (q : ℚ) : ℤ :=
  let n := ⌊q⌋
  let r := q - n
  if r < 1/2 then n
  else if 1/2 < r then n + 1
  else if n % 2 = 0 then n else n + 1

/-- Python `round(x, 4)` as a rational. -/
def pyRound4 (q : ℚ) : ℚ := (roundHalfEven (q * 10000) : ℚ) / 10000

/-- `MetricsCalculator.WEIGHTS`, in insertion order. -/
def WEIGHTS : List (String × ℚ) :=
  [("license", 15/100), ("ramp_up_time", 2/10), ("bus_factor", 1/10),
   ("performance_claims", 15/100), ("dataset_and_code_score", 2/10),
   ("dataset_quality", 1/10), ("code_quality", 1/10)]

/-- The keys of `metric_funcs` in `calculate_all_metrics`, in insertion order. -/
def metricNames : List String :=
  ["license", "ramp_up_time", "bus_factor", "performance_claims",
   "dataset_and_code_score", "dataset_quality", "code_quality", "size_score"]

/-- The `metric_funcs` table of `calculate_all_metrics`: each metric name and
the result its sub-scorer task would compute. -/
def metric_funcs (now : ℤ) (mi : ModelInfo) : List (String × MetricResult) :=
  [("license", license_calculate mi),
   ("ramp_up_time", rampup_calculate mi),
   ("bus_factor", busfactor_calculate now mi),
   ("performance_claims", performance_calculate mi),
   ("dataset_and_code_score", dataset_code_calculate mi),
   ("dataset_quality", dataset_quality_calculate mi),
   ("code_quality", code_quality_calculate mi),
   ("size_score", size_calculate mi)]

/-- The substitute `MetricResult(name, 0.5, 0, {"error": str(e)})` the
aggregator stores when a sub-scorer task raises. -/
def faultResult (name : String) (e : PyStr) : MetricResult :=
  { name := name, value := 1/2, latency_ms := 0, errorMsg := some e }

/-- The `results` dictionary of `calculate_all_metrics` as built by the
`as_completed` loop: the tasks complete in the order given by `order`
(a permutation of `metricNames`), and a task whose metric name is assigned a
fault stores the substitute result instead of raising. -/
def runInOrder (now : ℤ) (mi : ModelInfo) (faults : String → Option PyStr)
    (order : List String) : List (String × MetricResult) :=
  order.filterMap (fun k => (lookupKey (metric_funcs now mi) k).map (fun r =>
    (k, match faults k with
        | some e => faultResult k e
        | none => r)))

/-- The `(weighted_sum, total_weight)` accumulator of
`MetricsCalculator._calculate_net_score`. -/
def netAccum (results : List (String × MetricResult)) : ℚ × ℚ :=
  WEIGHTS.foldl (fun acc p =>
    match lookupKey results p.1 with
    | some r => (acc.1 + r.value * p.2, acc.2 + p.2)
    | none => acc) (0, 0)

/-- `MetricsCalculator._calculate_net_score`. -/
def calculate_net_score (results : List (String × MetricResult)) : ℚ :=
  let acc := netAccum results
  if 0 < acc.2 then pyRound4 (acc.1 / acc.2) else 1/2

/-- The `category_keywords` table of `MetricsCalculator._determine_category`,
in insertion order. -/
def CATEGORY_KEYWORDS : List (PyStr × List PyStr) := [
  (pstr "text-generation",
    [pstr "text-generation", pstr "gpt", pstr "llm", pstr "causal-lm"]),
  (pstr "text-classification",
    [pstr "text-classification", pstr "sentiment", pstr "classifier"]),
  (pstr "question-answering",
    [pstr "question-answering", pstr "qa", pstr "squad"]),
  (pstr "translation", [pstr "translation", pstr "nmt", pstr "mt"]),
  (pstr "summarization", [pstr "summarization", pstr "summary"]),
  (pstr "image-classification",
    [pstr "image-classification", pstr "vision", pstr "resnet", pstr "vit"]),
  (pstr "object-detection",
    [pstr "object-detection", pstr "yolo", pstr "detection"]),
  (pstr "speech-recognition",
    [pstr "speech-recognition", pstr "asr", pstr "whisper", pstr "wav2vec"]),
  (pstr "text-to-speech", [pstr "text-to-speech", pstr "tts"]),
  (pstr "feature-extraction",
    [pstr "feature-extraction", pstr "embedding", pstr "sentence-transformer"])]

/-- `MetricsCalculator._determine_category`. -/
def determine_category (mi : ModelInfo) : PyStr :=
  if mi.pipeline_tag ≠ [] then mi.pipeline_tag
  else
    let tags := mi.tags.map pyLower
    match CATEGORY_KEYWORDS.find? (fun p =>
        tags.any (fun tag => p.2.any (fun kw => pyIn kw tag))) with
    | some p => p.1
    | none => pstr "unknown"

/-- The default `MetricResult("", 0.5, 0)` used by the derived-metric
helpers of the aggregator. -/
def defaultMR : MetricResult := { name := "", value := 1/2 }

/-- `MetricsCalculator._calculate_reproducibility`. -/
def calculate_reproducibility (results : List (String × MetricResult)) : ℚ :=
  let dataset_score := ((lookupKey results "dataset_and_code_score").getD defaultMR).value
  let code_quality := ((lookupKey results "code_quality").getD defaultMR).value
  let rampup := ((lookupKey results "ramp_up_time").getD defaultMR).value
  pyRound4 (dataset_score * (4/10) + code_quality * (3/10) + rampup * (3/10))

/-- `MetricsCalculator._calculate_reviewedness`. -/
def calculate_reviewedness (results : List (String × MetricResult)) : ℚ :=
  let bus_factor := ((lookupKey results "bus_factor").getD defaultMR).value
  let performance := ((lookupKey results "performance_claims").getD defaultMR).value
  pyRound4 (bus_factor * (1/2) + performance * (1/2))

/-- `MetricsCalculator._calculate_tree_score`. -/
def calculate_tree_score (results : List (String × MetricResult)) : ℚ :=
  let license_score := ((lookupKey results "license").getD defaultMR).value
  let code_quality := ((lookupKey results "code_quality").getD defaultMR).value
  pyRound4 (license_score * (6/10) + code_quality * (4/10))

/-- The hardware-score dictionary default of the aggregator's `size_score`
handling (`details.get("hardware_scores", {...: 0.5})`), which coincides
with the defaults `get_model_rating` uses to build its `SizeScore`. -/
def defaultHW : SizeScore :=
  { raspberry_pi := 1/2, jetson_nano := 1/2, desktop_pc := 1/2, aws_server := 1/2 }

/-- The non-latency content of the output of
`MetricsCalculator.calculate_all_metrics` (a Python dictionary; the
`*_latency` entries are wall-clock timing data and are not modeled), which is
also exactly the non-latency content of the `ModelRating` built by
`get_model_rating`. -/
structure AggOutput where
  name : PyStr
  category : PyStr
  net_score : ℚ
  license : ℚ
  ramp_up_time : ℚ
  bus_factor : ℚ
  performance_claims : ℚ
  dataset_and_code_score : ℚ
  dataset_quality : ℚ
  code_quality : ℚ
  size_score : SizeScore
  reproducibility : ℚ
  reviewedness : ℚ
  tree_score : ℚ
deriving DecidableEq

/-- `MetricsCalculator.calculate_all_metrics` /
`MetricsCalculator.get_model_rating`.  The per-metric entries are written by
the `for metric_name, result in results.items()` loop; with `order` a
permutation of `metricNames` every key is present (claim C10), and a missing
key would be read back by `get_model_rating` with default `0.5`, which is
what `getD defaultMR` (value `1/2`) mirrors. -/
def calculate_all_metrics (now : ℤ) (mi : ModelInfo) (faults : String → Option PyStr)
    (order : List String) : AggOutput :=
  let results := runInOrder now mi faults order
  { name := mi.name,
    category := determine_category mi,
    net_score := calculate_net_score results,
    license := ((lookupKey results "license").getD defaultMR).value,
    ramp_up_time := ((lookupKey results "ramp_up_time").getD defaultMR).value,
    bus_factor := ((lookupKey results "bus_factor").getD defaultMR).value,
    performance_claims := ((lookupKey results "performance_claims").getD defaultMR).value,
    dataset_and_code_score := ((lookupKey results "dataset_and_code_score").getD defaultMR).value,
    dataset_quality := ((lookupKey results "dataset_quality").getD defaultMR).value,
    code_quality := ((lookupKey results "code_quality").getD defaultMR).value,
    size_score := (((lookupKey results "size_score").getD defaultMR).hardwareScores).getD defaultHW,
    reproducibility := calculate_reproducibility results,
    reviewedness := calculate_reviewedness results,
    tree_score := calculate_tree_score results }

/-! ## Threshold gate (`check_ingest_threshold` in
`src/src/metrics/calculator.py`)

The gate takes an arbitrary metrics dictionary.  Its values are modeled by
`PyVal`: `num q` is any value `float()` converts (numbers, numeric strings),
`nonNum` is any value on which `float()` raises `TypeError`/`ValueError`,
and `dict` is a nested dictionary (on which `float()` also raises, but which
the `size_score` branch iterates). -/

/-- A value of the metrics dictionary passed to `check_ingest_threshold`. -/
inductive PyVal where
  | num (q : ℚ)
  | nonNum
  | dict (entries : List (String × PyVal))

/-- Python `float(value)`: `none` models raising `TypeError`/`ValueError`. -/
def pyFloat : PyVal → Option ℚ
  | .num q => some q
  | .nonNum => none
  | .dict _ => none

/-- The `NON_LATENCY_KEYS` list of `check_ingest_threshold`. -/
def NON_LATENCY_KEYS : List String :=
  ["net_score", "ramp_up_time", "bus_factor", "performance_claims",
   "license", "dataset_and_code_score", "dataset_quality", "code_quality",
   "reproducibility", "reviewedness", "tree_score"]

/-- `check_ingest_threshold` from `src/src/metrics/calculator.py`. -/
def check_ingest_threshold (metrics : List (String × PyVal)) (threshold : ℚ) : Bool :=
  (NON_LATENCY_KEYS.all (fun key =>
    let value := (lookupKey metrics key).getD (.num 0)
    match pyFloat value with
    | some v => !(decide (v < threshold))
    | none => false)) &&
  (match (lookupKey metrics "size_score").getD (.dict []) with
   | .dict entries => entries.all (fun p =>
      match pyFloat p.2 with
      | some v => !(decide (v < threshold))
      | none => false)
   | _ => true)

/-! ## Helper lemmas -/

/-- The result the task for metric `k` contributes to `results`: its
sub-scorer's value, or the fault substitute if the task raises. -/
def taskResult (now : ℤ) (mi : ModelInfo) (faults : String → Option PyStr)
    (k : String) : Option MetricResult :=
  (lookupKey (metric_funcs now mi) k).map (fun r =>
    match faults k with
    | some e => faultResult k e
    | none => r)

theorem runInOrder_cons (now : ℤ) (mi : ModelInfo) (faults : String → Option PyStr)
    (j : String) (t : List String) :
    runInOrder now mi faults (j :: t) =
      (match lookupKey (metric_funcs now mi) j with
       | some r => [(j, match faults j with
                       | some e => faultResult j e
                       | none => r)]
       | none => []) ++ runInOrder now mi faults t := by
  rcases hl : lookupKey (metric_funcs now mi) j with _ | r <;>
    simp [runInOrder, List.filterMap_cons, hl]

theorem lookupKey_runInOrder_of_not_mem {now : ℤ} {mi : ModelInfo}
    {faults : String → Option PyStr} {order : List String}
    {k : String} (h : k ∉ order) :
    lookupKey (runInOrder now mi faults order) k = none := by
  induction order with
  | nil => rfl
  | cons j t ih =>
    simp only [List.mem_cons, not_or] at h
    rw [runInOrder_cons]
    rcases hl : lookupKey (metric_funcs now mi) j with _ | r
    · simp only [hl, List.nil_append]
      exact ih h.2
    · simp only [hl, List.cons_append, List.nil_append, lookupKey]
      rw [if_neg (Ne.symm h.1)]
      exact ih h.2

theorem lookupKey_runInOrder_of_mem {now : ℤ} {mi : ModelInfo}
    {faults : String → Option PyStr} {order : List String}
    {k : String} (h : k ∈ order) :
    lookupKey (runInOrder now mi faults order) k = taskResult now mi faults k := by
  induction order with
  | nil => simp at h
  | cons j t ih =>
    rw [runInOrder_cons]
    by_cases hjk : j = k
    · subst hjk
      rcases hl : lookupKey (metric_funcs now mi) j with _ | r
      · have htask : taskResult now mi faults j = none := by
          rw [taskResult, hl]; rfl
        rw [htask]
        simp only [hl, List.nil_append]
        by_cases hmem : j ∈ t
        · rw [ih hmem, htask]
        · exact lookupKey_runInOrder_of_not_mem hmem
      · have htask : taskResult now mi faults j =
            some (match faults j with
                  | some e => faultResult j e
                  | none => r) := by
          rw [taskResult, hl]; rfl
        rw [htask]
        simp [hl, lookupKey]
    · rcases List.mem_cons.mp h with h1 | h2
      · exact absurd h1.symm hjk
      · rcases hl : lookupKey (metric_funcs now mi) j with _ | r
        · simp only [hl, List.nil_append]
          exact ih h2
        · simp only [hl, List.cons_append, List.nil_append, lookupKey]
          rw [if_neg hjk]
          exact ih h2

/-- Lookup into the results dictionary depends only on membership of the
completion order, not on its arrangement. -/
theorem lookupKey_runInOrder (now : ℤ) (mi : ModelInfo)
    (faults : String → Option PyStr) (order : List String) (k : String) :
    lookupKey (runInOrder now mi faults order) k =
      if k ∈ order then taskResult now mi faults k else none := by
  by_cases h : k ∈ order
  · rw [if_pos h]; exact lookupKey_runInOrder_of_mem h
  · rw [if_neg h]; exact lookupKey_runInOrder_of_not_mem h

/-- The `_calculate_net_score` accumulator step. -/
def netStep (results : List (String × MetricResult)) (acc : ℚ × ℚ)
    (p : String × ℚ) : ℚ × ℚ :=
  match lookupKey results p.1 with
  | some r => (acc.1 + r.value * p.2, acc.2 + p.2)
  | none => acc

theorem netAccum_eq_foldl (results : List (String × MetricResult)) :
    netAccum results = WEIGHTS.foldl (netStep results) (0, 0) := rfl

theorem foldl_netStep_eq (results : List (String × MetricResult)) :
    ∀ (l : List (String × ℚ)) (a b : ℚ),
      l.foldl (netStep results) (a, b) =
        (a + ((l.filter (fun p => (lookupKey results p.1).isSome)).map
          (fun p => ((lookupKey results p.1).getD defaultMR).value * p.2)).sum,
         b + ((l.filter (fun p => (lookupKey results p.1).isSome)).map
          (fun p => p.2)).sum) := by
  intro l
  induction l with
  | nil => simp
  | cons p t ih =>
    intro a b
    rcases hl : lookupKey results p.1 with _ | r
    · simp [netStep, hl, ih]
    · simp [netStep, hl, ih, add_assoc]

/-! ## Claim C7 -/

/-- The hardware-tier scoring bracket as the spec states it: a piecewise
function of the size-to-limit quotient with inclusive upper bounds. -/
def ratioScoreSpec (r : ℚ) : ℚ :=
  if r ≤ 1/4 then 1
  else if r ≤ 1/2 then 9/10
  else if r ≤ 3/4 then 7/10
  else if r ≤ 1 then 1/2
  else if r ≤ 3/2 then 2/10
  else 0

/-- C7: for every positive estimated size and each of the four fixed hardware
memory limits, the hardware-tier score is the piecewise function of
`estimatedSize / hardwareLimit` with inclusive upper bounds
(≤1/4 → 1, ≤1/2 → 0.9, ≤3/4 → 0.7, ≤1 → 0.5, ≤3/2 → 0.2, else 0) — in
particular a quotient of exactly 1 yields 0.5 — and the size metric's scalar
value is the unweighted mean of the four hardware-tier scores. -/
theorem C7_size_piecewise_and_mean :
    (∀ (sz : ℚ) (p : String × ℚ), 0 < sz → p ∈ HARDWARE_LIMITS →
      calculate_hardware_score sz p.2 = ratioScoreSpec (sz / p.2)) ∧
    ratioScoreSpec 1 = 1/2 ∧
    (∀ mi : ModelInfo, (size_calculate mi).value =
      ((size_scores_of (estimate_size mi)).raspberry_pi +
       (size_scores_of (estimate_size mi)).jetson_nano +
       (size_scores_of (estimate_size mi)).desktop_pc +
       (size_scores_of (estimate_size mi)).aws_server) / 4) := by
  refine ⟨fun sz p hsz _ => ?_, by norm_num [ratioScoreSpec], fun mi => rfl⟩
  rw [calculate_hardware_score, if_neg (not_le.mpr hsz)]
  rfl

/-- C7 witness: a size exactly at the raspberry-pi limit scores `1/2`. -/
theorem C7_witness :
    (0 : ℚ) < 1073741824 ∧ ("raspberry_pi", (1073741824 : ℚ)) ∈ HARDWARE_LIMITS ∧
    calculate_hardware_score 1073741824 1073741824 =
      ratioScoreSpec (1073741824 / 1073741824) :=
  ⟨by norm_num, by simp [HARDWARE_LIMITS],
    C7_size_piecewise_and_mean.1 1073741824 ("raspberry_pi", 1073741824)
      (by norm_num) (by simp [HARDWARE_LIMITS])⟩

/-! ## Claim C2 -/

/-- C2: on a metrics map holding a numeric value for each of the eleven
primary non-latency keys and a size_score dictionary with numeric values for
the four hardware tiers, the gate passes iff all fifteen values are ≥ the
threshold. -/
theorem C2_threshold_iff (metrics : List (String × PyVal)) (threshold : ℚ)
    (v : String → ℚ) (s1 s2 s3 s4 : ℚ) (sentries : List (String × PyVal))
    (h11 : ∀ k ∈ NON_LATENCY_KEYS, lookupKey metrics k = some (.num (v k)))
    (hs : lookupKey metrics "size_score" = some (.dict sentries))
    (hperm : sentries.Perm
      [("raspberry_pi", .num s1), ("jetson_nano", .num s2),
       ("desktop_pc", .num s3), ("aws_server", .num s4)]) :
    check_ingest_threshold metrics threshold = true ↔
      ((∀ k ∈ NON_LATENCY_KEYS, threshold ≤ v k) ∧
        threshold ≤ s1 ∧ threshold ≤ s2 ∧ threshold ≤ s3 ∧ threshold ≤ s4) := by
  have hall : sentries.all (fun p =>
      match pyFloat p.2 with
      | some v => !(decide (v < threshold))
      | none => false) =
    ([(("raspberry_pi" : String), PyVal.num s1), ("jetson_nano", .num s2),
      ("desktop_pc", .num s3), ("aws_server", .num s4)]).all (fun p =>
      match pyFloat p.2 with
      | some v => !(decide (v < threshold))
      | none => false) := by
    rw [Bool.eq_iff_iff, List.all_eq_true, List.all_eq_true]
    exact ⟨fun h x hx => h x (hperm.mem_iff.mpr hx),
           fun h x hx => h x (hperm.mem_iff.mp hx)⟩
  have e1 := h11 "net_score" (by simp [NON_LATENCY_KEYS])
  have e2 := h11 "ramp_up_time" (by simp [NON_LATENCY_KEYS])
  have e3 := h11 "bus_factor" (by simp [NON_LATENCY_KEYS])
  have e4 := h11 "performance_claims" (by simp [NON_LATENCY_KEYS])
  have e5 := h11 "license" (by simp [NON_LATENCY_KEYS])
  have e6 := h11 "dataset_and_code_score" (by simp [NON_LATENCY_KEYS])
  have e7 := h11 "dataset_quality" (by simp [NON_LATENCY_KEYS])
  have e8 := h11 "code_quality" (by simp [NON_LATENCY_KEYS])
  have e9 := h11 "reproducibility" (by simp [NON_LATENCY_KEYS])
  have e10 := h11 "reviewedness" (by simp [NON_LATENCY_KEYS])
  have e11 := h11 "tree_score" (by simp [NON_LATENCY_KEYS])
  simp only [check_ingest_threshold, hs, Option.getD_some]
  rw [hall]
  simp only [NON_LATENCY_KEYS, List.all_cons, List.all_nil,
    e1, e2, e3, e4, e5, e6, e7, e8, e9, e10, e11, pyFloat,
    Option.getD_some, Bool.and_eq_true, Bool.not_eq_true', decide_eq_false_iff_not,
    not_lt, List.mem_cons, List.not_mem_nil, or_false, forall_eq_or_imp, forall_eq,
    and_true, Bool.and_true]

/-- C2 witness: a map with all eleven primaries and all four tier scores
equal to 1 passes at threshold 1. -/
theorem C2_witness :
    check_ingest_threshold
      (NON_LATENCY_KEYS.map (fun k => (k, PyVal.num 1)) ++
        [("size_score", PyVal.dict
          [("raspberry_pi", .num 1), ("jetson_nano", .num 1),
           ("desktop_pc", .num 1), ("aws_server", .num 1)])]) 1 = true := by
  rw [C2_threshold_iff _ 1 (fun _ => 1) 1 1 1 1 _
    (by intro k hk; fin_cases hk <;> rfl) (by rfl) (List.Perm.refl _)]
  exact ⟨fun k _ => le_refl 1, le_refl 1, le_refl 1, le_refl 1, le_refl 1⟩

/-! ## Claim C3 -/

/-- The C3 counterexample map: every primary key present with value 1 and no
size_score key at all. -/
def c3map : List (String × PyVal) := NON_LATENCY_KEYS.map (fun k => (k, PyVal.num 1))

/-- C3 counterexample: the size_score entry is missing from the map, yet the
gate passes at the default threshold 0.5 — a missing size_score defaults to
an empty dictionary whose value loop is vacuous, so it is never treated as a
failure. -/
theorem C3_counterexample :
    lookupKey c3map "size_score" = none ∧
    check_ingest_threshold c3map (1/2) = true := by
  refine ⟨rfl, ?_⟩
  simp +decide [c3map, check_ingest_threshold, NON_LATENCY_KEYS, lookupKey, pyFloat]
  norm_num

/-- C3 as amended: the gate fails when one of the eleven primary keys holds a
value `float()` rejects, or is missing while the threshold is positive (a
missing key defaults to 0), or when a size_score dictionary is present and
holds a value `float()` rejects.  A missing size_score, a non-dictionary
size_score, or a hardware tier missing from the size_score dictionary is not
checked and does not by itself make the gate fail. -/
theorem C3_amended_fail_closed (metrics : List (String × PyVal)) (threshold : ℚ)
    (h : (∃ k ∈ NON_LATENCY_KEYS, ∃ val, lookupKey metrics k = some val ∧
            pyFloat val = none) ∨
         (0 < threshold ∧ ∃ k ∈ NON_LATENCY_KEYS, lookupKey metrics k = none) ∨
         (∃ entries, lookupKey metrics "size_score" = some (.dict entries) ∧
            ∃ p ∈ entries, pyFloat p.2 = none)) :
    check_ingest_threshold metrics threshold = false := by
  rw [check_ingest_threshold]
  rcases h with ⟨k, hk, val, hval, hfl⟩ | ⟨hpos, k, hk, hval⟩ | ⟨entries, hs, p, hp, hfl⟩
  · have : NON_LATENCY_KEYS.all (fun key =>
        match pyFloat ((lookupKey metrics key).getD (.num 0)) with
        | some v => !(decide (v < threshold))
        | none => false) = false := by
      refine List.all_eq_false.mpr ⟨k, hk, ?_⟩
      rw [hval]
      simp [hfl]
    rw [this]
    rfl
  · have : NON_LATENCY_KEYS.all (fun key =>
        match pyFloat ((lookupKey metrics key).getD (.num 0)) with
        | some v => !(decide (v < threshold))
        | none => false) = false := by
      refine List.all_eq_false.mpr ⟨k, hk, ?_⟩
      rw [hval]
      simp [pyFloat, hpos]
    rw [this]
    rfl
  · rw [hs]
    have : entries.all (fun p =>
        match pyFloat p.2 with
        | some v => !(decide (v < threshold))
        | none => false) = false :=
      List.all_eq_false.mpr ⟨p, hp, by simp [hfl]⟩
    simp [this]

/-- C3 amended witness: a non-numeric net_score makes the gate fail. -/
theorem C3_amended_witness :
    check_ingest_threshold [("net_score", PyVal.nonNum)] 0 = false :=
  C3_amended_fail_closed _ _
    (Or.inl ⟨"net_score", by simp [NON_LATENCY_KEYS], PyVal.nonNum, rfl, rfl⟩)

/-! ## Claim C4 -/

/-- The net score as the spec states it: the weighted sum over the present
weighted keys divided by the sum of their weights, rounded to 4 decimals;
`0.5` when no weighted key is present. -/
def netScoreSpec (results : List (String × MetricResult)) : ℚ :=
  let present := WEIGHTS.filter (fun p => (lookupKey results p.1).isSome)
  if present = [] then 1/2
  else pyRound4
    ((present.map (fun p => ((lookupKey results p.1).getD defaultMR).value * p.2)).sum /
     (present.map (fun p => p.2)).sum)

theorem WEIGHTS_pos : ∀ p ∈ WEIGHTS, (0 : ℚ) < p.2 := by
  intro p hp
  fin_cases hp <;> norm_num

/-- The net-score characterization over an arbitrary results dictionary. -/
theorem C4_net_score_eq_spec (results : List (String × MetricResult)) :
    calculate_net_score results = netScoreSpec results := by
  have hacc : netAccum results =
      (((WEIGHTS.filter (fun p => (lookupKey results p.1).isSome)).map
          (fun p => ((lookupKey results p.1).getD defaultMR).value * p.2)).sum,
       ((WEIGHTS.filter (fun p => (lookupKey results p.1).isSome)).map
          (fun p => p.2)).sum) := by
    rw [netAccum_eq_foldl, foldl_netStep_eq results WEIGHTS 0 0]
    simp
  rw [calculate_net_score, netScoreSpec, hacc]
  by_cases hp : WEIGHTS.filter (fun p => (lookupKey results p.1).isSome) = []
  · rw [if_neg, if_pos hp]
    rw [hp]
    simp
  · have hpos : 0 < ((WEIGHTS.filter (fun p => (lookupKey results p.1).isSome)).map
        (fun p => p.2)).sum := by
      apply List.sum_pos
      · intro x hx
        rcases List.mem_map.mp hx with ⟨q, hq, hqx⟩
        rw [← hqx]
        exact WEIGHTS_pos q (List.mem_of_mem_filter hq)
      · simpa using hp
    rw [if_pos hpos, if_neg hp]

/-- C4: the net score computed by `calculate_all_metrics` equals the weighted
sum of the seven primaries (license 0.15, ramp-up 0.20, bus factor 0.10,
performance 0.15, dataset-and-code 0.20, dataset quality 0.10, code quality
0.10; size excluded) restricted to the metric keys present in the results
dictionary, divided by the sum of the present weights, rounded to 4 decimal
places, and defaults to 0.5 when no weighted key is present. -/
theorem C4_net_score_formula :
    (∀ results : List (String × MetricResult),
      calculate_net_score results = netScoreSpec results) ∧
    (∀ (now : ℤ) (mi : ModelInfo) (faults : String → Option PyStr)
        (order : List String),
      (calculate_all_metrics now mi faults order).net_score =
        netScoreSpec (runInOrder now mi faults order)) :=
  ⟨fun results => C4_net_score_eq_spec results,
   fun now mi faults order => C4_net_score_eq_spec (runInOrder now mi faults order)⟩

/-! ## Claim C10 -/

/-- C10: when the completion order is a permutation of the eight metric names
(as `as_completed` over the eight submitted tasks always is), every metric
key is present in the results dictionary, the accumulated `total_weight` of
`_calculate_net_score` is exactly 1, and the net score is the rounded
weighted sum — the degenerate `0.5` branch is not taken. -/
theorem C10_full_weight (now : ℤ) (mi : ModelInfo)
    (faults : String → Option PyStr) (order : List String)
    (h : order.Perm metricNames) :
    (∀ k ∈ metricNames, (lookupKey (runInOrder now mi faults order) k).isSome) ∧
    (netAccum (runInOrder now mi faults order)).2 = 1 ∧
    calculate_net_score (runInOrder now mi faults order) =
      pyRound4 ((netAccum (runInOrder now mi faults order)).1) := by
  have hlook : ∀ k ∈ metricNames,
      lookupKey (runInOrder now mi faults order) k = taskResult now mi faults k :=
    fun k hk => lookupKey_runInOrder_of_mem (h.mem_iff.mpr hk)
  have hsome : ∀ k ∈ metricNames, (taskResult now mi faults k).isSome := by
    intro k hk
    fin_cases hk <;> rfl
  have hpresent : ∀ k ∈ metricNames,
      (lookupKey (runInOrder now mi faults order) k).isSome := by
    intro k hk
    rw [hlook k hk]
    exact hsome k hk
  have hw : ∀ p ∈ WEIGHTS, (lookupKey (runInOrder now mi faults order) p.1).isSome := by
    intro p hp
    fin_cases hp <;> exact hpresent _ (by simp [metricNames])
  have hfil : WEIGHTS.filter
      (fun p => (lookupKey (runInOrder now mi faults order) p.1).isSome) = WEIGHTS :=
    List.filter_eq_self.mpr (fun p hp => hw p hp)
  have hacc2 : (netAccum (runInOrder now mi faults order)).2 = 1 := by
    rw [netAccum_eq_foldl, foldl_netStep_eq _ WEIGHTS 0 0]
    simp only [hfil]
    norm_num [WEIGHTS]
  refine ⟨hpresent, hacc2, ?_⟩
  rw [calculate_net_score]
  rw [hacc2]
  norm_num

/-- C10 witness: on the empty descriptor with the canonical completion order,
the license key is present and the accumulated total weight is 1. -/
theorem C10_witness :
    (lookupKey (runInOrder 0 {} (fun _ => none) metricNames) "license").isSome ∧
    (netAccum (runInOrder 0 {} (fun _ => none) metricNames)).2 = 1 :=
  ⟨(C10_full_weight 0 {} (fun _ => none) metricNames (List.Perm.refl _)).1
      "license" (by simp [metricNames]),
   (C10_full_weight 0 {} (fun _ => none) metricNames (List.Perm.refl _)).2.1⟩

/-! ## Bounds infrastructure for claim C1 -/

/-- Membership of the unit interval. -/
def inUnit (q : ℚ) : Prop := 0 ≤ q ∧ q ≤ 1

theorem inUnit_min1 {s : ℚ} (hs : 0 ≤ s) : inUnit (min s 1) :=
  ⟨le_min hs zero_le_one, min_le_right _ _⟩

theorem le_foldl_of_step {α : Type} (step : ℚ → α → ℚ)
    (hstep : ∀ acc x, acc ≤ step acc x) :
    ∀ (l : List α) (init : ℚ), init ≤ l.foldl step init := by
  intro l
  induction l with
  | nil => intro init; simp
  | cons x t ih =>
    intro init
    calc init ≤ step init x := hstep init x
    _ ≤ t.foldl step (step init x) := ih (step init x)

theorem foldl_le_of_step {α : Type} (step : ℚ → α → ℚ) (c : ℚ)
    (hstep : ∀ acc x, acc ≤ c → step acc x ≤ c) :
    ∀ (l : List α) (init : ℚ), init ≤ c → l.foldl step init ≤ c := by
  intro l
  induction l with
  | nil => intro init h; simpa using h
  | cons x t ih =>
    intro init h
    exact ih (step init x) (hstep init x h)

theorem lookupKey_mem {α : Type} {m : List (String × α)} {k : String} {v : α}
    (h : lookupKey m k = some v) : (k, v) ∈ m := by
  induction m with
  | nil => simp [lookupKey] at h
  | cons p t ih =>
    rw [lookupKey] at h
    by_cases hk : p.1 = k
    · rw [if_pos hk] at h
      injection h with h2
      rcases p with ⟨a, b⟩
      dsimp at hk h2
      subst hk
      subst h2
      exact List.mem_cons_self _ _
    · rw [if_neg hk] at h
      exact List.mem_cons_of_mem _ (ih h)

theorem pyRound4_bounds {q : ℚ} (h0 : 0 ≤ q) (h1 : q ≤ 1) : inUnit (pyRound4 q) := by
  rw [pyRound4, roundHalfEven]
  have hr0 : (0 : ℚ) ≤ q * 10000 := by linarith
  have hr1 : q * 10000 ≤ 10000 := by linarith
  have hf0 : (0 : ℤ) ≤ ⌊q * 10000⌋ := Int.floor_nonneg.mpr hr0
  have hfle : (⌊q * 10000⌋ : ℚ) ≤ 10000 := (Int.floor_le _).trans hr1
  have hfle' : ⌊q * 10000⌋ ≤ 10000 := by exact_mod_cast hfle
  have key0 : ∀ n : ℤ, 0 ≤ n → (0 : ℚ) ≤ (n : ℚ) / 10000 := by
    intro n hn
    apply div_nonneg _ (by norm_num)
    exact_mod_cast hn
  constructor
  · split_ifs
    · exact key0 _ hf0
    · exact key0 _ (by omega)
    · exact key0 _ hf0
    · exact key0 _ (by omega)
  · have key : ∀ n : ℤ, 0 ≤ n → n ≤ 10000 → (n : ℚ) / 10000 ≤ 1 := by
      intro n _ hn2
      rw [div_le_one (by norm_num)]
      exact_mod_cast hn2
    split_ifs with hlt hgt
    · exact key _ hf0 hfle'
    · have : ⌊q * 10000⌋ + 1 ≤ 10000 := by
        by_contra hcon
        have he : ⌊q * 10000⌋ = 10000 := by omega
        rw [he] at hgt
        norm_num at hgt
        linarith
      exact key _ (by omega) this
    · exact key _ hf0 hfle'
    · have hhalf : q * 10000 - ⌊q * 10000⌋ = 1/2 := le_antisymm (not_lt.mp hgt) (not_lt.mp hlt)
      have : ⌊q * 10000⌋ + 1 ≤ 10000 := by
        by_contra hcon
        have he : ⌊q * 10000⌋ = 10000 := by omega
        rw [he] at hhalf
        norm_num at hhalf
        linarith
      exact key _ (by omega) this

/-! ### Per-scorer bounds -/

theorem LICENSE_SCORES_bounds : ∀ p ∈ LICENSE_SCORES, inUnit p.2 := by
  intro p hp
  fin_cases hp <;> exact ⟨by norm_num, by norm_num⟩

theorem score_license_bounds (n : PyStr) : inUnit (score_license n) := by
  rw [score_license]
  rcases h1 : LICENSE_SCORES.find? (fun p => p.1 == n) with _ | p
  · rcases h2 : LICENSE_SCORES.find? (fun p => pyIn p.1 n || pyIn n p.1) with _ | q
    · simp only [h1, h2]
      exact ⟨by norm_num, by norm_num⟩
    · simp only [h1, h2]
      exact LICENSE_SCORES_bounds q (List.mem_of_find?_eq_some h2)
  · simp only [h1]
    exact LICENSE_SCORES_bounds p (List.mem_of_find?_eq_some h1)

theorem license_value_inUnit (mi : ModelInfo) : inUnit (license_calculate mi).value :=
  score_license_bounds _

theorem calculate_hardware_score_inUnit (a b : ℚ) :
    inUnit (calculate_hardware_score a b) := by
  simp only [calculate_hardware_score]
  split_ifs <;> exact ⟨by norm_num, by norm_num⟩

theorem size_scores_of_inUnit (sz : ℚ) :
    inUnit (size_scores_of sz).raspberry_pi ∧ inUnit (size_scores_of sz).jetson_nano ∧
    inUnit (size_scores_of sz).desktop_pc ∧ inUnit (size_scores_of sz).aws_server :=
  ⟨calculate_hardware_score_inUnit _ _, calculate_hardware_score_inUnit _ _,
   calculate_hardware_score_inUnit _ _, calculate_hardware_score_inUnit _ _⟩

theorem size_value_inUnit (mi : ModelInfo) : inUnit (size_calculate mi).value := by
  have h := size_scores_of_inUnit (estimate_size mi)
  rcases h with ⟨⟨a0, a1⟩, ⟨b0, b1⟩, ⟨c0, c1⟩, ⟨d0, d1⟩⟩
  show inUnit (average_score (size_scores_of (estimate_size mi)))
  rw [average_score]
  constructor
  · linarith
  · linarith

theorem rampup_fold_ge (r : PyStr) : (3/10 : ℚ) ≤ RAMPUP_SECTIONS.foldl
    (fun acc kws => if kws.any (fun kw => pyIn kw r) then acc + 12/100 else acc)
    (3/10) := by
  apply le_foldl_of_step
  intro acc x
  split_ifs
  · exact le_add_of_nonneg_right (by norm_num)
  · exact le_refl acc

theorem score_readme_bounds (mi : ModelInfo) : inUnit (score_readme mi) := by
  simp only [score_readme]
  generalize (if readmeLower mi = [] then pyLower mi.api_data.description
    else readmeLower mi) = r
  split_ifs with h1 h2
  · exact ⟨by norm_num, by norm_num⟩
  · exact inUnit_min1 (by linarith [rampup_fold_ge r])
  · exact inUnit_min1 (by linarith [rampup_fold_ge r])

theorem score_examples_bounds (mi : ModelInfo) : inUnit (score_examples mi) := by
  rw [score_examples]
  apply inUnit_min1
  split_ifs <;> norm_num

theorem score_model_card_bounds (mi : ModelInfo) : inUnit (score_model_card mi) := by
  rw [score_model_card]
  apply inUnit_min1
  split_ifs <;> norm_num

theorem score_popularity_bounds (mi : ModelInfo) : inUnit (score_popularity mi) := by
  rw [score_popularity]
  split_ifs <;> exact ⟨by norm_num, by norm_num⟩

theorem rampup_value_inUnit (mi : ModelInfo) : inUnit (rampup_calculate mi).value := by
  have h1 := score_readme_bounds mi
  have h2 := score_examples_bounds mi
  have h3 := score_model_card_bounds mi
  have h4 := score_popularity_bounds mi
  rcases h1 with ⟨a0, a1⟩
  rcases h2 with ⟨b0, b1⟩
  rcases h3 with ⟨c0, c1⟩
  rcases h4 with ⟨d0, d1⟩
  exact ⟨by dsimp [rampup_calculate]; linarith, by dsimp [rampup_calculate]; linarith⟩

theorem foldl_le_of_step_mem {α : Type} (step : ℚ → α → ℚ) (c : ℚ) :
    ∀ (l : List α), (∀ acc x, x ∈ l → acc ≤ c → step acc x ≤ c) →
      ∀ init, init ≤ c → l.foldl step init ≤ c := by
  intro l
  induction l with
  | nil => intro _ init h; simpa using h
  | cons x t ih =>
    intro hstep init h
    exact ih (fun acc y hy hacc => hstep acc y (List.mem_cons_of_mem _ hy) hacc)
      (step init x) (hstep init x (List.mem_cons_self _ _) h)

theorem TRUSTED_ORGS_bounds : ∀ p ∈ TRUSTED_ORGS, inUnit p.2 := by
  intro p hp
  fin_cases hp <;> exact ⟨by norm_num, by norm_num⟩

theorem score_organization_bounds (mi : ModelInfo) : inUnit (score_organization mi) := by
  simp only [score_organization]
  rcases h1 : TRUSTED_ORGS.find? (fun p =>
      pyStartsWith (pyLower mi.name) (p.1 ++ pstr "/") ||
        pyIn (pstr "/" ++ p.1 ++ pstr "/") (pyLower mi.name)) with _ | p
  · rcases h2 : (if pyIn (pstr "/") (pyLower mi.name) then
        TRUSTED_ORGS.find? (fun p => p.1 == pyBeforeFirst 47 (pyLower mi.name))
      else none) with _ | q
    · rcases h3 : mi.tags.findSome? (fun tag =>
          (TRUSTED_ORGS.find? (fun p => pyIn p.1 (pyLower tag))).map (·.2)) with _ | v
      · simp only [h1, h2, h3]
        exact ⟨by norm_num, by norm_num⟩
      · simp only [h1, h2, h3]
        have hv : ∃ p ∈ TRUSTED_ORGS, p.2 = v := by
          rcases List.exists_of_findSome?_eq_some h3 with ⟨tag, htag1, htag⟩
          rcases ho : TRUSTED_ORGS.find? (fun p => pyIn p.1 (pyLower tag)) with _ | q
          · rw [ho] at htag
            simp at htag
          · rw [ho] at htag
            simp only [Option.map] at htag
            exact ⟨q, List.mem_of_find?_eq_some ho, Option.some_inj.mp htag⟩
        rcases hv with ⟨p, hp, hpv⟩
        rcases TRUSTED_ORGS_bounds p hp with ⟨hb0, hb1⟩
        rw [hpv] at hb0 hb1
        constructor
        · nlinarith
        · nlinarith
    · simp only [h1, h2]
      have hq : q ∈ TRUSTED_ORGS := by
        split_ifs at h2
        exact List.mem_of_find?_eq_some h2
      exact TRUSTED_ORGS_bounds q hq
  · simp only [h1]
    exact TRUSTED_ORGS_bounds p (List.mem_of_find?_eq_some h1)

theorem score_activity_bounds (now : ℤ) (mi : ModelInfo) :
    inUnit (score_activity now mi) := by
  have key : ∀ s : PyStr, inUnit (if s = [] then (4/10 : ℚ)
      else match parseDate s with
        | none => 4/10
        | some d =>
          if now - d ≤ 7 then 1
          else if now - d ≤ 30 then 9/10
          else if now - d ≤ 90 then 8/10
          else if now - d ≤ 180 then 6/10
          else if now - d ≤ 365 then 4/10
          else 3/10) := by
    intro s
    split_ifs with h
    · exact ⟨by norm_num, by norm_num⟩
    · rcases parseDate s with _ | d
      · exact ⟨by norm_num, by norm_num⟩
      · dsimp only
        split_ifs <;> exact ⟨by norm_num, by norm_num⟩
  exact key (if mi.last_modified ≠ [] then mi.last_modified
    else mi.api_data.lastModified)

theorem score_community_bounds (mi : ModelInfo) : inUnit (score_community mi) := by
  simp only [score_community]
  split_ifs <;> exact ⟨by norm_num, by norm_num⟩

theorem busfactor_value_inUnit (now : ℤ) (mi : ModelInfo) :
    inUnit (busfactor_calculate now mi).value := by
  rcases score_organization_bounds mi with ⟨a0, a1⟩
  rcases score_activity_bounds now mi with ⟨b0, b1⟩
  rcases score_community_bounds mi with ⟨c0, c1⟩
  exact ⟨by dsimp [busfactor_calculate]; linarith,
         by dsimp [busfactor_calculate]; linarith⟩

theorem score_model_index_bounds (mi : ModelInfo) : inUnit (score_model_index mi) := by
  simp only [score_model_index]
  split_ifs <;> exact ⟨by norm_num, by norm_num⟩

theorem score_readme_benchmarks_bounds (mi : ModelInfo) :
    inUnit (score_readme_benchmarks mi) := by
  simp only [score_readme_benchmarks]
  split_ifs
  · exact ⟨by norm_num, by norm_num⟩
  · apply inUnit_min1
    apply add_nonneg
    · apply add_nonneg
      · apply add_nonneg
        · norm_num
        · positivity
      · positivity
    · norm_num
  · apply inUnit_min1
    apply add_nonneg
    · apply add_nonneg
      · norm_num
      · positivity
    · positivity

theorem score_tags_bounds (mi : ModelInfo) : inUnit (score_tags mi) := by
  simp only [score_tags]
  split_ifs <;> exact inUnit_min1 (by norm_num)

theorem performance_value_inUnit (mi : ModelInfo) :
    inUnit (performance_calculate mi).value := by
  rcases score_model_index_bounds mi with ⟨a0, a1⟩
  rcases score_readme_benchmarks_bounds mi with ⟨b0, b1⟩
  rcases score_tags_bounds mi with ⟨c0, c1⟩
  exact ⟨by dsimp [performance_calculate]; linarith,
         by dsimp [performance_calculate]; linarith⟩

theorem score_datasets_bounds (mi : ModelInfo) : inUnit (score_datasets mi) := by
  simp only [score_datasets]
  split_ifs <;> exact inUnit_min1 (by positivity)

theorem score_code_bounds (mi : ModelInfo) : inUnit (score_code mi) := by
  simp only [score_code]
  split_ifs <;> exact inUnit_min1 (by positivity)

theorem score_training_info_bounds (mi : ModelInfo) :
    inUnit (score_training_info mi) := by
  simp only [score_training_info]
  exact inUnit_min1 (by positivity)

theorem dataset_code_value_inUnit (mi : ModelInfo) :
    inUnit (dataset_code_calculate mi).value := by
  rcases score_datasets_bounds mi with ⟨a0, a1⟩
  rcases score_code_bounds mi with ⟨b0, b1⟩
  rcases score_training_info_bounds mi with ⟨c0, c1⟩
  exact ⟨by dsimp [dataset_code_calculate]; linarith,
         by dsimp [dataset_code_calculate]; linarith⟩

theorem QUALITY_DATASETS_le_one : ∀ p ∈ QUALITY_DATASETS, p.2 ≤ 1 := by
  intro p hp
  fin_cases hp <;> norm_num

theorem known_ds_fold_bounds (st : PyStr) :
    inUnit (QUALITY_DATASETS.foldl
      (fun acc p => if pyIn p.1 st then max acc p.2 else acc) (4/10)) := by
  constructor
  · calc (0 : ℚ) ≤ 4/10 := by norm_num
    _ ≤ _ := by
        apply le_foldl_of_step
        intro acc x
        split_ifs
        · exact le_max_left _ _
        · exact le_refl acc
  · apply foldl_le_of_step_mem _ _ QUALITY_DATASETS _ _ (by norm_num)
    intro acc x hx hacc
    split_ifs
    · exact max_le hacc (QUALITY_DATASETS_le_one x hx)
    · exact hacc

theorem score_known_datasets_bounds (mi : ModelInfo) :
    inUnit (score_known_datasets mi) := by
  simp only [score_known_datasets]
  split_ifs <;> exact known_ds_fold_bounds _

theorem score_documentation_bounds (mi : ModelInfo) :
    inUnit (score_documentation mi) := by
  simp only [score_documentation]
  split_ifs <;> exact inUnit_min1 (by positivity)

theorem score_curation_bounds (mi : ModelInfo) : inUnit (score_curation mi) := by
  simp only [score_curation]
  split_ifs <;> exact inUnit_min1 (by positivity)

theorem dataset_quality_value_inUnit (mi : ModelInfo) :
    inUnit (dataset_quality_calculate mi).value := by
  rcases score_known_datasets_bounds mi with ⟨a0, a1⟩
  rcases score_documentation_bounds mi with ⟨b0, b1⟩
  rcases score_curation_bounds mi with ⟨c0, c1⟩
  exact ⟨by dsimp [dataset_quality_calculate]; linarith,
         by dsimp [dataset_quality_calculate]; linarith⟩

theorem GOOD_FILES_nonneg : ∀ p ∈ GOOD_FILES, 0 ≤ p.2 := by
  intro p hp
  fin_cases hp <;> norm_num

theorem score_code_structure_bounds (mi : ModelInfo) :
    inUnit (score_code_structure mi) := by
  simp only [score_code_structure]
  have hfold : (4/10 : ℚ) ≤ mi.api_data.siblings.foldl (fun acc sib =>
      match GOOD_FILES.find? (fun p =>
          p.1 == (if sib.isDict then sib.rfilename else [])) with
      | some p => acc + p.2
      | none => acc) (4/10) := by
    apply le_foldl_of_step
    intro acc x
    rcases h : GOOD_FILES.find? (fun p =>
        p.1 == (if x.isDict then x.rfilename else [])) with _ | p
    · simp only [h]
      exact le_refl acc
    · simp only [h]
      exact le_add_of_nonneg_right (GOOD_FILES_nonneg p (List.mem_of_find?_eq_some h))
  split_ifs <;> exact inUnit_min1 (by linarith)

theorem score_code_documentation_bounds (mi : ModelInfo) :
    inUnit (score_code_documentation mi) := by
  simp only [score_code_documentation]
  split_ifs <;> exact inUnit_min1 (by norm_num)

theorem score_testing_bounds (mi : ModelInfo) : inUnit (score_testing mi) := by
  simp only [score_testing]
  split_ifs <;> exact inUnit_min1 (by norm_num)

theorem code_quality_value_inUnit (mi : ModelInfo) :
    inUnit (code_quality_calculate mi).value := by
  rcases score_code_structure_bounds mi with ⟨a0, a1⟩
  rcases score_code_documentation_bounds mi with ⟨b0, b1⟩
  rcases score_testing_bounds mi with ⟨c0, c1⟩
  exact ⟨by dsimp [code_quality_calculate]; linarith,
         by dsimp [code_quality_calculate]; linarith⟩

/-- Bound for every entry of `metric_funcs`: each of the eight sub-scorers
returns a value in `[0,1]`, and the size scorer's hardware-score details are
in `[0,1]` as well. -/
theorem metric_funcs_inUnit (now : ℤ) (mi : ModelInfo) :
    ∀ p ∈ metric_funcs now mi, inUnit p.2.value ∧
      (∀ ss, p.2.hardwareScores = some ss →
        inUnit ss.raspberry_pi ∧ inUnit ss.jetson_nano ∧
        inUnit ss.desktop_pc ∧ inUnit ss.aws_server) := by
  intro p hp
  fin_cases hp
  · exact ⟨license_value_inUnit mi, by intro ss h; simp [license_calculate] at h⟩
  · exact ⟨rampup_value_inUnit mi, by intro ss h; simp [rampup_calculate] at h⟩
  · exact ⟨busfactor_value_inUnit now mi, by intro ss h; simp [busfactor_calculate] at h⟩
  · exact ⟨performance_value_inUnit mi, by intro ss h; simp [performance_calculate] at h⟩
  · exact ⟨dataset_code_value_inUnit mi, by intro ss h; simp [dataset_code_calculate] at h⟩
  · exact ⟨dataset_quality_value_inUnit mi, by intro ss h; simp [dataset_quality_calculate] at h⟩
  · exact ⟨code_quality_value_inUnit mi, by intro ss h; simp [code_quality_calculate] at h⟩
  · refine ⟨size_value_inUnit mi, ?_⟩
    intro ss h
    simp only [size_calculate, Option.some.injEq] at h
    rw [← h]
    exact size_scores_of_inUnit (estimate_size mi)

/-- Bound for every result the aggregator stores: a sub-scorer's result or
the `0.5` fault substitute. -/
theorem runInOrder_lookup_inUnit (now : ℤ) (mi : ModelInfo)
    (faults : String → Option PyStr) (order : List String) :
    ∀ k r, lookupKey (runInOrder now mi faults order) k = some r →
      inUnit r.value ∧
      (∀ ss, r.hardwareScores = some ss →
        inUnit ss.raspberry_pi ∧ inUnit ss.jetson_nano ∧
        inUnit ss.desktop_pc ∧ inUnit ss.aws_server) := by
  intro k r h
  have hmem := lookupKey_mem h
  rw [runInOrder] at hmem
  rcases List.mem_filterMap.mp hmem with ⟨j, _, hjf⟩
  rcases hl : lookupKey (metric_funcs now mi) j with _ | r0
  · rw [hl] at hjf
    simp at hjf
  · rw [hl] at hjf
    simp only [Option.map] at hjf
    injection hjf with hjf2
    rcases hf : faults j with _ | e <;> rw [hf] at hjf2
    · have hk : r = r0 := by
        have h2 := congrArg Prod.snd hjf2
        simpa using h2.symm
      rw [hk]
      exact metric_funcs_inUnit now mi (j, r0) (lookupKey_mem hl)
    · have hk : r = faultResult j e := by
        have h2 := congrArg Prod.snd hjf2
        simpa using h2.symm
      rw [hk]
      constructor
      · exact ⟨by norm_num [faultResult], by norm_num [faultResult]⟩
      · intro ss hss
        simp [faultResult] at hss

theorem lookup_getD_value_inUnit (results : List (String × MetricResult))
    (hres : ∀ k r, lookupKey results k = some r → inUnit r.value) (k : String) :
    inUnit ((lookupKey results k).getD defaultMR).value := by
  rcases h : lookupKey results k with _ | r
  · exact ⟨by norm_num [defaultMR], by norm_num [defaultMR]⟩
  · exact hres k r h

theorem calculate_net_score_inUnit (results : List (String × MetricResult))
    (hres : ∀ k r, lookupKey results k = some r → inUnit r.value) :
    inUnit (calculate_net_score results) := by
  rw [calculate_net_score]
  split_ifs with hpos
  · have hacc : netAccum results =
        (((WEIGHTS.filter (fun p => (lookupKey results p.1).isSome)).map
            (fun p => ((lookupKey results p.1).getD defaultMR).value * p.2)).sum,
         ((WEIGHTS.filter (fun p => (lookupKey results p.1).isSome)).map
            (fun p => p.2)).sum) := by
      rw [netAccum_eq_foldl, foldl_netStep_eq results WEIGHTS 0 0]
      simp
    rw [hacc] at hpos ⊢
    dsimp only at hpos ⊢
    have hterm : ∀ p ∈ WEIGHTS.filter (fun p => (lookupKey results p.1).isSome),
        0 ≤ ((lookupKey results p.1).getD defaultMR).value * p.2 ∧
        ((lookupKey results p.1).getD defaultMR).value * p.2 ≤ p.2 := by
      intro p hp
      have hw := WEIGHTS_pos p (List.mem_of_mem_filter hp)
      have hv := lookup_getD_value_inUnit results hres p.1
      exact ⟨mul_nonneg hv.1 (le_of_lt hw), by nlinarith [hv.2]⟩
    have hS0 : 0 ≤ ((WEIGHTS.filter (fun p => (lookupKey results p.1).isSome)).map
        (fun p => ((lookupKey results p.1).getD defaultMR).value * p.2)).sum := by
      apply List.sum_nonneg
      intro x hx
      rcases List.mem_map.mp hx with ⟨q, hq, hqx⟩
      rw [← hqx]
      exact (hterm q hq).1
    have hSW : ((WEIGHTS.filter (fun p => (lookupKey results p.1).isSome)).map
        (fun p => ((lookupKey results p.1).getD defaultMR).value * p.2)).sum ≤
        ((WEIGHTS.filter (fun p => (lookupKey results p.1).isSome)).map
          (fun p => p.2)).sum := by
      apply List.sum_le_sum
      intro q hq
      exact (hterm q hq).2
    exact pyRound4_bounds (div_nonneg hS0 (le_of_lt hpos))
      ((div_le_one hpos).mpr hSW)
  · exact ⟨by norm_num, by norm_num⟩

theorem derived_round_inUnit {a b c wa wb wc : ℚ}
    (ha : inUnit a) (hb : inUnit b) (hc : inUnit c)
    (hwa : 0 ≤ wa) (hwb : 0 ≤ wb) (hwc : 0 ≤ wc) (hw : wa + wb + wc ≤ 1) :
    inUnit (pyRound4 (a * wa + b * wb + c * wc)) := by
  rcases ha with ⟨a0, a1⟩
  rcases hb with ⟨b0, b1⟩
  rcases hc with ⟨c0, c1⟩
  exact pyRound4_bounds (by positivity) (by nlinarith)

/-- C1: every sub-scorer's `MetricResult.value` lies in `[0,1]` for every
Descriptor, and every score field of the aggregated output (net score, the
seven weighted primaries, the three derived metrics, and the four
hardware-tier size scores) lies in `[0,1]`, for every completion order and
fault assignment. -/
theorem C1_scores_unit_interval (now : ℤ) (mi : ModelInfo)
    (faults : String → Option PyStr) (order : List String) :
    (∀ p ∈ metric_funcs now mi, inUnit p.2.value) ∧
    (inUnit (calculate_all_metrics now mi faults order).net_score ∧
     inUnit (calculate_all_metrics now mi faults order).license ∧
     inUnit (calculate_all_metrics now mi faults order).ramp_up_time ∧
     inUnit (calculate_all_metrics now mi faults order).bus_factor ∧
     inUnit (calculate_all_metrics now mi faults order).performance_claims ∧
     inUnit (calculate_all_metrics now mi faults order).dataset_and_code_score ∧
     inUnit (calculate_all_metrics now mi faults order).dataset_quality ∧
     inUnit (calculate_all_metrics now mi faults order).code_quality ∧
     inUnit (calculate_all_metrics now mi faults order).reproducibility ∧
     inUnit (calculate_all_metrics now mi faults order).reviewedness ∧
     inUnit (calculate_all_metrics now mi faults order).tree_score ∧
     inUnit (calculate_all_metrics now mi faults order).size_score.raspberry_pi ∧
     inUnit (calculate_all_metrics now mi faults order).size_score.jetson_nano ∧
     inUnit (calculate_all_metrics now mi faults order).size_score.desktop_pc ∧
     inUnit (calculate_all_metrics now mi faults order).size_score.aws_server) := by
  have hres := runInOrder_lookup_inUnit now mi faults order
  have hresv : ∀ k r, lookupKey (runInOrder now mi faults order) k = some r →
      inUnit r.value := fun k r h => (hres k r h).1
  have hfield := lookup_getD_value_inUnit (runInOrder now mi faults order) hresv
  have hhalf : inUnit (1/2 : ℚ) := ⟨by norm_num, by norm_num⟩
  constructor
  · intro p hp
    exact (metric_funcs_inUnit now mi p hp).1
  · refine ⟨calculate_net_score_inUnit _ hresv, hfield "license", hfield "ramp_up_time",
      hfield "bus_factor", hfield "performance_claims", hfield "dataset_and_code_score",
      hfield "dataset_quality", hfield "code_quality",
      derived_round_inUnit (hfield _) (hfield _) (hfield _)
        (by norm_num) (by norm_num) (by norm_num) (by norm_num),
      ?_, ?_, ?_, ?_, ?_, ?_⟩
    · show inUnit (pyRound4 (((lookupKey (runInOrder now mi faults order)
          "bus_factor").getD defaultMR).value * (1/2) +
        ((lookupKey (runInOrder now mi faults order)
          "performance_claims").getD defaultMR).value * (1/2)))
      rcases hfield "bus_factor" with ⟨a0, a1⟩
      rcases hfield "performance_claims" with ⟨b0, b1⟩
      exact pyRound4_bounds (by positivity) (by nlinarith)
    · show inUnit (pyRound4 (((lookupKey (runInOrder now mi faults order)
          "license").getD defaultMR).value * (6/10) +
        ((lookupKey (runInOrder now mi faults order)
          "code_quality").getD defaultMR).value * (4/10)))
      rcases hfield "license" with ⟨a0, a1⟩
      rcases hfield "code_quality" with ⟨b0, b1⟩
      exact pyRound4_bounds (by positivity) (by nlinarith)
    all_goals {
      show inUnit _
      rcases h : lookupKey (runInOrder now mi faults order) "size_score" with _ | r
      · simp only [calculate_all_metrics, h, Option.getD_none, defaultMR, defaultHW]
        exact hhalf
      · rcases hss : r.hardwareScores with _ | ss
        · simp only [calculate_all_metrics, h, Option.getD_some, hss, Option.getD_none,
            defaultHW]
          exact hhalf
        · have hb := (hres "size_score" r h).2 ss hss
          simp only [calculate_all_metrics, h, Option.getD_some, hss, Option.getD_some]
          first
            | exact hb.1
            | exact hb.2.1
            | exact hb.2.2.1
            | exact hb.2.2.2
    }

/-! ## Claim C6 -/

/-- The C6 counterexample Descriptor: identical in both calls; only the
ambient clock differs. -/
def mi6 : ModelInfo := { last_modified := pstr "2024-01-01" }

/-- C6 counterexample: two calls of `calculate_all_metrics` on the identical
Descriptor, with identical weight tables, fault assignment and completion
order, return different `bus_factor` values when made at different times
(2024-01-04 and 2025-06-01, as day numbers): `_score_activity` buckets the
distance between `last_modified` and `datetime.now()`. -/
theorem C6_counterexample :
    (calculate_all_metrics 19726 mi6 (fun _ => none) metricNames).bus_factor ≠
    (calculate_all_metrics 20240 mi6 (fun _ => none) metricNames).bus_factor := by
  have hb : ∀ now : ℤ,
      (calculate_all_metrics now mi6 (fun _ => none) metricNames).bus_factor =
        (busfactor_calculate now mi6).value := by
    intro now
    show ((lookupKey (runInOrder now mi6 (fun _ => none) metricNames)
      "bus_factor").getD defaultMR).value = _
    rw [lookupKey_runInOrder_of_mem (by simp [metricNames])]
    rfl
  have hp : parseDate (pstr "2024-01-01") = some 19723 := by decide
  have ha1 : score_activity 19726 mi6 = 1 := by
    simp +decide [score_activity, mi6, hp]
  have ha2 : score_activity 20240 mi6 = 3/10 := by
    simp +decide [score_activity, mi6, hp]
  rw [hb, hb]
  dsimp [busfactor_calculate]
  rw [ha1, ha2]
  intro heq
  have h4 : (1 : ℚ) * (4/10) = (3/10) * (4/10) := by linarith
  norm_num at h4

/-- C6 as amended: with the current time fixed, `calculate_all_metrics` is
deterministic with respect to worker-pool scheduling — any two completion
orders of the eight tasks produce identical non-latency output; only calls
made at different current times may differ (via `_score_activity`). -/
theorem C6_amended_order_invariant (now : ℤ) (mi : ModelInfo)
    (faults : String → Option PyStr) (o1 o2 : List String)
    (h1 : o1.Perm metricNames) (h2 : o2.Perm metricNames) :
    calculate_all_metrics now mi faults o1 = calculate_all_metrics now mi faults o2 := by
  have hl : ∀ k, lookupKey (runInOrder now mi faults o1) k =
      lookupKey (runInOrder now mi faults o2) k := by
    intro k
    rw [lookupKey_runInOrder, lookupKey_runInOrder]
    by_cases hk : k ∈ metricNames
    · rw [if_pos (h1.mem_iff.mpr hk), if_pos (h2.mem_iff.mpr hk)]
    · rw [if_neg (fun hh => hk (h1.mem_iff.mp hh)),
        if_neg (fun hh => hk (h2.mem_iff.mp hh))]
  have hacc : netAccum (runInOrder now mi faults o1) =
      netAccum (runInOrder now mi faults o2) := by
    rw [netAccum_eq_foldl, netAccum_eq_foldl,
      foldl_netStep_eq (runInOrder now mi faults o1) WEIGHTS 0 0,
      foldl_netStep_eq (runInOrder now mi faults o2) WEIGHTS 0 0]
    simp only [hl]
  simp only [calculate_all_metrics, calculate_net_score, calculate_reproducibility,
    calculate_reviewedness, calculate_tree_score, hacc, hl]

/-- C6 amended witness: the canonical order and its reverse give the same
output on the empty Descriptor. -/
theorem C6_amended_witness :
    calculate_all_metrics 0 {} (fun _ => none) metricNames.reverse =
      calculate_all_metrics 0 {} (fun _ => none) metricNames :=
  C6_amended_order_invariant 0 {} (fun _ => none) metricNames.reverse metricNames
    (List.reverse_perm metricNames) (List.Perm.refl metricNames)

/-! ## Claim C5 -/

/-- C5: if the sub-scorer task of metric `k` raises with message `e`, the
aggregator stores the neutral substitute
`MetricResult(name=k, value=0.5, latency_ms=0, details={"error": e})` for it
instead of propagating the exception, and every metric key is still present
in the results dictionary. -/
theorem C5_fault_substitution (now : ℤ) (mi : ModelInfo)
    (faults : String → Option PyStr) (order : List String) (k : String) (e : PyStr)
    (horder : order.Perm metricNames) (hk : k ∈ metricNames)
    (hf : faults k = some e) :
    lookupKey (runInOrder now mi faults order) k =
      some { name := k, value := 1/2, latency_ms := 0,
             hardwareScores := none, errorMsg := some e } ∧
    ∀ j ∈ metricNames, (lookupKey (runInOrder now mi faults order) j).isSome := by
  constructor
  · rw [lookupKey_runInOrder_of_mem (horder.mem_iff.mpr hk), taskResult]
    simp only [hf]
    fin_cases hk <;> rfl
  · intro j hj
    rw [lookupKey_runInOrder_of_mem (horder.mem_iff.mpr hj), taskResult]
    fin_cases hj <;> rfl

/-- C5 witness: with a fault injected into the license task on the empty
Descriptor, the stored license result is the 0.5 substitute and the
size_score key is still present. -/
theorem C5_witness :
    lookupKey (runInOrder 0 {} (fun j => if j = "license" then some (pstr "boom") else none)
        metricNames) "license" =
      some { name := "license", value := 1/2, latency_ms := 0,
             hardwareScores := none, errorMsg := some (pstr "boom") } ∧
    (lookupKey (runInOrder 0 {} (fun j => if j = "license" then some (pstr "boom") else none)
        metricNames) "size_score").isSome :=
  ⟨(C5_fault_substitution 0 {} _ metricNames "license" (pstr "boom")
      (List.Perm.refl _) (by simp [metricNames]) (by simp)).1,
   (C5_fault_substitution 0 {} _ metricNames "license" (pstr "boom")
      (List.Perm.refl _) (by simp [metricNames]) (by simp)).2
     "size_score" (by simp [metricNames])⟩

/-! ## Claim C8: license normalization

`_normalize_license` first cleans its input —
`lower().strip().replace(" ", "-").replace("_", "-")` — and then folds
license families.  `repHy`/`cleanLicense` name the cleaning pipeline for the
idempotence proof. -/

/-- The two hyphen replacements of `_normalize_license`. -/
def repHy (l : PyStr) : PyStr := pyReplaceChar 95 45 (pyReplaceChar 32 45 l)

/-- The cleaning pipeline of `_normalize_license`. -/
def cleanLicense (s : PyStr) : PyStr := repHy (pyStrip (pyLower s))

/-- Restatement of `normalize_license` through `cleanLicense` (definitional). -/
theorem normalize_license_eq (s : PyStr) : normalize_license s =
    (if s = [] then pstr "unknown"
     else
       let n := cleanLicense s
       if pyIn (pstr "apache") n && pyIn (pstr "2") n then pstr "apache-2.0"
       else if n = pstr "mit" ∨ n = pstr "mit-license" then pstr "mit"
       else if pyIn (pstr "bsd") n then
         (if pyIn (pstr "3") n then pstr "bsd-3-clause"
          else if pyIn (pstr "2") n then pstr "bsd-2-clause"
          else pstr "bsd")
       else if pyIn (pstr "gpl") n then
         (if pyIn (pstr "lgpl") n then
           (if pyIn (pstr "3") n then pstr "lgpl-3.0" else pstr "lgpl-2.1")
          else if pyIn (pstr "agpl") n then pstr "agpl-3.0"
          else if pyIn (pstr "3") n then pstr "gpl-3.0"
          else pstr "gpl-2.0")
       else n) := rfl

theorem lowerChar_idem (c : Nat) : lowerChar (lowerChar c) = lowerChar c := by
  simp only [lowerChar]
  split_ifs <;> omega

theorem repChar_lowerChar_comm (c : Nat) :
    lowerChar (if (if c = 32 then 45 else c) = 95 then 45 else if c = 32 then 45 else c) =
      (if (if lowerChar c = 32 then 45 else lowerChar c) = 95 then 45
       else if lowerChar c = 32 then 45 else lowerChar c) := by
  simp only [lowerChar]
  split_ifs <;> omega

theorem repChar_idem (c : Nat) :
    (if (if (if (if c = 32 then 45 else c) = 95 then 45 else if c = 32 then 45 else c) = 32
          then 45
          else if (if c = 32 then 45 else c) = 95 then 45
          else if c = 32 then 45 else c) = 95
        then 45
        else if (if (if c = 32 then 45 else c) = 95 then 45
            else if c = 32 then 45 else c) = 32
          then 45
          else if (if c = 32 then 45 else c) = 95 then 45
          else if c = 32 then 45 else c) =
      (if (if c = 32 then 45 else c) = 95 then 45 else if c = 32 then 45 else c) := by
  split_ifs <;> omega

theorem isSpaceChar_lowerChar (c : Nat) : isSpaceChar (lowerChar c) = isSpaceChar c := by
  rw [Bool.eq_iff_iff]
  simp only [isSpaceChar, lowerChar, Bool.or_eq_true, decide_eq_true_eq]
  split_ifs <;> omega

theorem isSpaceChar_repChar (c : Nat) (h : isSpaceChar c = false) :
    isSpaceChar (if (if c = 32 then 45 else c) = 95 then 45
      else if c = 32 then 45 else c) = false := by
  simp only [isSpaceChar, Bool.or_eq_false_iff, decide_eq_false_iff_not] at h ⊢
  split_ifs <;> omega

theorem pyLower_idem (l : PyStr) : pyLower (pyLower l) = pyLower l := by
  simp only [pyLower, List.map_map]
  exact List.map_congr_left (fun c _ => lowerChar_idem c)

theorem pyStrip_pyLower_comm (l : PyStr) :
    pyStrip (pyLower l) = pyLower (pyStrip l) := by
  have hpred : (isSpaceChar ∘ lowerChar) = isSpaceChar :=
    funext (fun c => isSpaceChar_lowerChar c)
  simp only [pyStrip, pyLower]
  rw [List.dropWhile_map, hpred, ← List.map_reverse, List.dropWhile_map, hpred,
    ← List.map_reverse]

theorem repHy_map (l : PyStr) : repHy l =
    l.map (fun c => if (if c = 32 then 45 else c) = 95 then 45
      else if c = 32 then 45 else c) := by
  simp only [repHy, pyReplaceChar, List.map_map]
  rfl

theorem pyLower_repHy_comm (l : PyStr) :
    pyLower (repHy l) = repHy (pyLower l) := by
  simp only [repHy_map, pyLower, List.map_map]
  exact List.map_congr_left (fun c _ => repChar_lowerChar_comm c)

theorem repHy_idem (l : PyStr) : repHy (repHy l) = repHy l := by
  simp only [repHy_map, List.map_map]
  exact List.map_congr_left (fun c _ => repChar_idem c)

/-- No-whitespace condition on the first character. -/
def headNoWs (l : PyStr) : Prop := ∀ c, l.head? = some c → isSpaceChar c = false

/-- No-whitespace condition on the last character. -/
def lastNoWs (l : PyStr) : Prop := ∀ c, l.getLast? = some c → isSpaceChar c = false

theorem headNoWs_dropWhile (l : PyStr) : headNoWs (l.dropWhile isSpaceChar) := by
  intro c hc
  have h := List.head?_dropWhile_not isSpaceChar l
  rw [hc] at h
  exact h

theorem headNoWs_pyStrip (l : PyStr) : headNoWs (pyStrip l) := by
  intro c hc
  rw [pyStrip, List.head?_reverse] at hc
  have hne : ((l.dropWhile isSpaceChar).reverse.dropWhile isSpaceChar) ≠ [] := by
    intro hnil
    rw [hnil] at hc
    simp at hc
  rcases List.dropWhile_suffix (l := (l.dropWhile isSpaceChar).reverse)
      isSpaceChar with ⟨t, ht⟩
  have h2 : ((l.dropWhile isSpaceChar).reverse).getLast? = some c := by
    rw [← ht, List.getLast?_append_of_ne_nil _ hne]
    exact hc
  rw [List.getLast?_reverse] at h2
  exact headNoWs_dropWhile l c h2

theorem lastNoWs_pyStrip (l : PyStr) : lastNoWs (pyStrip l) := by
  intro c hc
  rw [pyStrip, List.getLast?_reverse] at hc
  exact headNoWs_dropWhile _ c hc

theorem headNoWs_repHy (l : PyStr) (h : headNoWs l) : headNoWs (repHy l) := by
  intro c hc
  rw [repHy_map, List.head?_map] at hc
  rcases Option.map_eq_some'.mp hc with ⟨a, ha, hfa⟩
  rw [← hfa]
  exact isSpaceChar_repChar a (h a ha)

theorem lastNoWs_repHy (l : PyStr) (h : lastNoWs l) : lastNoWs (repHy l) := by
  intro c hc
  rw [repHy_map, List.getLast?_map] at hc
  rcases Option.map_eq_some'.mp hc with ⟨a, ha, hfa⟩
  rw [← hfa]
  exact isSpaceChar_repChar a (h a ha)

theorem dropWhile_eq_self_of_headNoWs (l : PyStr) (h : headNoWs l) :
    l.dropWhile isSpaceChar = l := by
  cases l with
  | nil => rfl
  | cons a t =>
    rw [List.dropWhile_cons, h a rfl]
    simp

theorem pyStrip_eq_self (l : PyStr) (h1 : headNoWs l) (h2 : lastNoWs l) :
    pyStrip l = l := by
  rw [pyStrip, dropWhile_eq_self_of_headNoWs l h1]
  have h3 : l.reverse.dropWhile isSpaceChar = l.reverse := by
    apply dropWhile_eq_self_of_headNoWs
    intro c hc
    rw [List.head?_reverse] at hc
    exact h2 c hc
  rw [h3, List.reverse_reverse]

theorem cleanLicense_idem (s : PyStr) : cleanLicense (cleanLicense s) = cleanLicense s := by
  have hT : pyLower (pyStrip (pyLower s)) = pyStrip (pyLower s) := by
    rw [← pyStrip_pyLower_comm, pyLower_idem]
  have hlow : pyLower (cleanLicense s) = cleanLicense s := by
    rw [cleanLicense, pyLower_repHy_comm, hT]
  have hstrip : pyStrip (cleanLicense s) = cleanLicense s := by
    apply pyStrip_eq_self
    · exact headNoWs_repHy _ (headNoWs_pyStrip _)
    · exact lastNoWs_repHy _ (lastNoWs_pyStrip _)
  have hstart : cleanLicense (cleanLicense s) =
      repHy (pyStrip (pyLower (cleanLicense s))) := rfl
  rw [hstart, hlow, hstrip]
  show repHy (repHy (pyStrip (pyLower s))) = repHy (pyStrip (pyLower s))
  exact repHy_idem _

/-- Restatement of `normalize_license` with the cleaned string inlined
(definitional). -/
theorem normalize_license_eq2 (s : PyStr) : normalize_license s =
    (if s = [] then pstr "unknown"
     else
       if pyIn (pstr "apache") (cleanLicense s) && pyIn (pstr "2") (cleanLicense s) then
         pstr "apache-2.0"
       else if cleanLicense s = pstr "mit" ∨ cleanLicense s = pstr "mit-license" then
         pstr "mit"
       else if pyIn (pstr "bsd") (cleanLicense s) then
         (if pyIn (pstr "3") (cleanLicense s) then pstr "bsd-3-clause"
          else if pyIn (pstr "2") (cleanLicense s) then pstr "bsd-2-clause"
          else pstr "bsd")
       else if pyIn (pstr "gpl") (cleanLicense s) then
         (if pyIn (pstr "lgpl") (cleanLicense s) then
           (if pyIn (pstr "3") (cleanLicense s) then pstr "lgpl-3.0" else pstr "lgpl-2.1")
          else if pyIn (pstr "agpl") (cleanLicense s) then pstr "agpl-3.0"
          else if pyIn (pstr "3") (cleanLicense s) then pstr "gpl-3.0"
          else pstr "gpl-2.0")
       else cleanLicense s) := rfl

/-- C8 counterexample: normalization is not idempotent.  A single space is a
truthy Python string, so `_normalize_license(" ")` strips it to the empty
string `""`; but `_normalize_license("")` takes the falsy branch and returns
`"unknown"`. -/
theorem C8_counterexample :
    normalize_license (normalize_license (pstr " ")) ≠ normalize_license (pstr " ") := by
  decide

/-- C8 as amended: normalization is idempotent on every input whose
normalization is nonempty; equivalently, re-normalizing any nonempty
normalized string returns it unchanged.  (The only failures are nonempty
all-whitespace strings, which normalize to `""`, which re-normalizes to
`"unknown"`.) -/
theorem C8_amended_idempotent (s : PyStr) (h : normalize_license s ≠ []) :
    normalize_license (normalize_license s) = normalize_license s := by
  by_cases hs : s = []
  · subst hs
    decide
  · rw [normalize_license_eq2 s, if_neg hs] at h ⊢
    have hcn : cleanLicense (cleanLicense s) = cleanLicense s := cleanLicense_idem s
    by_cases b1 : (pyIn (pstr "apache") (cleanLicense s) &&
        pyIn (pstr "2") (cleanLicense s)) = true
    · rw [if_pos b1]
      decide
    · rw [if_neg b1] at h ⊢
      by_cases b2 : cleanLicense s = pstr "mit" ∨ cleanLicense s = pstr "mit-license"
      · rw [if_pos b2]
        decide
      · rw [if_neg b2] at h ⊢
        by_cases b3 : pyIn (pstr "bsd") (cleanLicense s) = true
        · rw [if_pos b3]
          split_ifs <;> decide
        · rw [if_neg b3] at h ⊢
          by_cases b4 : pyIn (pstr "gpl") (cleanLicense s) = true
          · rw [if_pos b4]
            split_ifs <;> decide
          · rw [if_neg b4] at h ⊢
            rw [normalize_license_eq2 (cleanLicense s), if_neg h, hcn,
              if_neg b1, if_neg b2, if_neg b3, if_neg b4]

/-- C8 amended witness: `"MIT"` normalizes to the nonempty `"mit"`, and
normalizing again returns it unchanged. -/
theorem C8_amended_witness :
    normalize_license (pstr "MIT") ≠ [] ∧
    normalize_license (normalize_license (pstr "MIT")) = normalize_license (pstr "MIT") :=
  ⟨by decide, C8_amended_idempotent (pstr "MIT") (by decide)⟩

/-! ## Claim C9 -/

theorem ite_bool_or (b e : Bool) : (if b = true then true else e) = (b || e) := by
  cases b <;> simp

theorem ite_prop_or (P : Prop) [Decidable P] (e : Bool) :
    (if P then true else e) = (decide P || e) := by
  by_cases h : P <;> simp [h]

theorem compat_core_comm (x y : PyStr) :
    (if permissiveSet.contains x || permissiveSet.contains y then true
     else if x = y then true
     else if gplFamily.contains x && gplFamily.contains y then true
     else if openrailSet.contains x && openrailSet.contains y then true
     else decide (7/10 ≤ score_license x) && decide (7/10 ≤ score_license y)) =
    (if permissiveSet.contains y || permissiveSet.contains x then true
     else if y = x then true
     else if gplFamily.contains y && gplFamily.contains x then true
     else if openrailSet.contains y && openrailSet.contains x then true
     else decide (7/10 ≤ score_license y) && decide (7/10 ≤ score_license x)) := by
  have hxy : (decide (x = y)) = (decide (y = x)) := by simp [eq_comm]
  rw [ite_bool_or, ite_prop_or, ite_bool_or, ite_bool_or,
    ite_bool_or, ite_prop_or, ite_bool_or, ite_bool_or,
    Bool.or_comm (permissiveSet.contains x) (permissiveSet.contains y),
    Bool.and_comm (gplFamily.contains x) (gplFamily.contains y),
    Bool.and_comm (openrailSet.contains x) (openrailSet.contains y),
    Bool.and_comm (decide (7/10 ≤ score_license x)) (decide (7/10 ≤ score_license y)),
    hxy]

/-- C9: `check_license_compatibility` is commutative — every rule of the
predicate (either side permissive, equality, both in the GPL family, both in
the OpenRAIL family, both scoring at least 0.7) is symmetric in its two
arguments. -/
theorem C9_compat_comm (license1 license2 : PyStr) :
    check_license_compatibility license1 license2 =
      check_license_compatibility license2 license1 :=
  compat_core_comm (normalize_license license1) (normalize_license license2)

end MetricsEngine
